import Mathlib

/-!
Verification of the viNES emulator core (Rust) against its specification.

Shallow embedding conventions:
  - u8 / u16 / u64 machine integers are modelled as Nat; wrapping operations
    carry an explicit mod (% 256 / % 65536); bitwise ops use Nat.land (&&&),
    Nat.lor (|||), Nat.xor (^^^), Nat.shiftLeft (<<<), Nat.shiftRight (>>>),
    matching the Rust operators.
  - Rust bitflags structs whose operations are insert / remove / set /
    contains / bits / from_bits_truncate are modelled as records of Bools
    together with bits / fromBitsTruncate conversions (all 8 bits of CpuFlags,
    PpuCtrl and PpuMask are declared in the source, so from_bits_truncate is
    the identity on bytes; PpuStatus declares only bits 5, 6, 7).
  - Rust Vec / array indexing that can go out of bounds (a panic) is modelled
    with Option (List.get?); fixed-size array indexing whose index is masked
    into range by the code itself uses getD.
-/

set_option maxRecDepth 8192

namespace ViNES

/-! ### CPU status flags (src/cpu/mod.rs, bitflags CpuFlags) -/

/-- Model of the bitflags struct CpuFlags (src/cpu/mod.rs lines 8-20):
bit 0 CARRY, bit 1 ZERO, bit 2 IRQ_DIS, bit 3 DECIMAL, bit 4 BREAK,
bit 5 BREAK2, bit 6 OVERFLOW, bit 7 NEGATIVE. -/
structure CpuFlags where
  carry : Bool
  zero : Bool
  irqDis : Bool
  decimal : Bool
  brk : Bool
  break2 : Bool
  overflow : Bool
  negative : Bool
deriving DecidableEq

/-- CpuFlags::bits: the packed status byte. The eight flags occupy disjoint
bits, so the sum equals the bitwise or of the set bits. -/
def CpuFlags.bits (s : CpuFlags) : Nat :=
  (if s.carry then 0x01 else 0) + (if s.zero then 0x02 else 0) +
  (if s.irqDis then 0x04 else 0) + (if s.decimal then 0x08 else 0) +
  (if s.brk then 0x10 else 0) + (if s.break2 then 0x20 else 0) +
  (if s.overflow then 0x40 else 0) + (if s.negative then 0x80 else 0)

/-- CpuFlags::from_bits_truncate: all eight bits are declared flags, so the
byte is decomposed bit by bit. -/
def CpuFlags.fromBitsTruncate (n : Nat) : CpuFlags :=
  ⟨n.testBit 0, n.testBit 1, n.testBit 2, n.testBit 3,
   n.testBit 4, n.testBit 5, n.testBit 6, n.testBit 7⟩

/-! ### CPU register file (src/cpu/mod.rs, struct Cpu) -/

/-- struct Cpu (src/cpu/mod.rs lines 22-32). -/
structure Cpu where
  a : Nat
  x : Nat
  y : Nat
  sp : Nat
  pc : Nat
  status : CpuFlags
  cycles : Nat
  stall : Nat
deriving DecidableEq

/-- Cpu::new (src/cpu/mod.rs lines 35-46): status = from_bits_truncate(0x24). -/
def Cpu.new : Cpu :=
  { a := 0, x := 0, y := 0, sp := 0xFD, pc := 0
    status := CpuFlags.fromBitsTruncate 0x24, cycles := 0, stall := 0 }

/-- Cpu::update_zero_negative (src/cpu/mod.rs lines 109-112):
status.set(ZERO, val == 0); status.set(NEGATIVE, val & 0x80 != 0). -/
def Cpu.update_zero_negative (c : Cpu) (val : Nat) : Cpu :=
  { c with
    status :=
    { c.status with zero := decide (val = 0), negative := decide (val &&& 0x80 ≠ 0) } }

/-- Cpu::adc (src/cpu/mod.rs lines 593-604).  The 9-bit sum is computed in
u16 arithmetic (a as u16 + val as u16 + carry); CARRY is set from sum > 0xFF,
the result is sum as u8, OVERFLOW from (a ^ result) & (val ^ result) & 0x80,
then a := result and update_zero_negative(result). -/
def Cpu.adc (c : Cpu) (val : Nat) : Cpu :=
  let carry := if c.status.carry then 1 else 0
  let sum := (c.a + val + carry) % 65536
  let result := sum % 256
  let c1 := { c with status := { c.status with carry := decide (sum > 0xFF) } }
  let c2 := { c1 with
              status :=
              { c1.status with overflow := decide ((c.a ^^^ result) &&& (val ^^^ result) &&& 0x80 ≠ 0) } }
  let c3 := { c2 with a := result }
  c3.update_zero_negative result

/-- Cpu::sbc (src/cpu/mod.rs lines 606-608): adc(val ^ 0xFF). -/
def Cpu.sbc (c : Cpu) (val : Nat) : Cpu :=
  c.adc (val ^^^ 0xFF)

/-- Cpu::compare (src/cpu/mod.rs lines 610-614): the wrapping u8 difference,
CARRY = reg >= val, Z and N from the difference. -/
def Cpu.compare (c : Cpu) (reg val : Nat) : Cpu :=
  let result := (reg + 256 - val % 256) % 256
  let c1 := { c with status := { c.status with carry := decide (reg ≥ val) } }
  c1.update_zero_negative result

/-! ### The status-register write paths of the CPU interpreter

Every assignment to self.status in src/cpu/mod.rs is one of the following
shapes (an exhaustive enumeration of the source):
  - update_zero_negative (lines 109-112), used by loads, transfers, logic,
    shifts, inc/dec, pulls and arithmetic;
  - status.set(CARRY, b) in shifts/rotates (lines 241, 251, ...), compare
    (line 612), adc (line 596) and the unofficial read-modify-write opcodes;
  - status.set(OVERFLOW, b) in adc (lines 598-601) and BIT (line 451);
  - status.set(ZERO, b) and status.set(NEGATIVE, b) in BIT (lines 450-452);
  - status.insert of IRQ_DIS (nmi line 65, irq line 80, BRK line 462,
    SEI line 444), CARRY (SEC line 442), DECIMAL (SED line 443);
  - status.remove of CARRY (CLC line 438), DECIMAL (CLD line 439),
    IRQ_DIS (CLI line 440), OVERFLOW (CLV line 441);
  - the PLP (lines 430-435) / RTI (lines 409-416) pull:
    status = from_bits_truncate((flags & 0xCF) | (status.bits() & 0x30));
    status.insert(BREAK2). -/
inductive StatusOp where
  | updateZN (val : Nat)
  | setCarry (b : Bool)
  | setOverflow (b : Bool)
  | setZero (b : Bool)
  | setNegative (b : Bool)
  | insertCarry
  | insertDecimal
  | insertIrqDis
  | removeCarry
  | removeDecimal
  | removeIrqDis
  | removeOverflow
  | pullStatus (flags : Nat)

/-- Effect of each status-register write path on the status flags. -/
def applyStatusOp (op : StatusOp) (s : CpuFlags) : CpuFlags :=
  match op with
  | .updateZN v => { s with zero := decide (v = 0), negative := decide (v &&& 0x80 ≠ 0) }
  | .setCarry b => { s with carry := b }
  | .setOverflow b => { s with overflow := b }
  | .setZero b => { s with zero := b }
  | .setNegative b => { s with negative := b }
  | .insertCarry => { s with carry := true }
  | .insertDecimal => { s with decimal := true }
  | .insertIrqDis => { s with irqDis := true }
  | .removeCarry => { s with carry := false }
  | .removeDecimal => { s with decimal := false }
  | .removeIrqDis => { s with irqDis := false }
  | .removeOverflow => { s with overflow := false }
  | .pullStatus f =>
      let s1 := CpuFlags.fromBitsTruncate ((f &&& 0xCF) ||| (s.bits &&& 0x30))
      { s1 with break2 := true }

/-! ### Cartridge loader (src/cartridge/mod.rs) -/

inductive Mirroring where
  | Horizontal
  | Vertical
  | FourScreen
deriving DecidableEq

inductive CartridgeError where
  | InvalidHeader
  | UnsupportedMapper (id : Nat)
  | TruncatedFile
deriving DecidableEq

def INES_MAGIC : List Nat := [0x4E, 0x45, 0x53, 0x1A]

def PRG_ROM_PAGE_SIZE : Nat := 16384

def CHR_ROM_PAGE_SIZE : Nat := 8192

def TRAINER_SIZE : Nat := 512

structure Cartridge where
  prg_rom : List Nat
  chr_rom : List Nat
  mapper_id : Nat
  mirroring : Mirroring
deriving DecidableEq

/-- Cartridge::from_ines (src/cartridge/mod.rs lines 44-102). -/
def Cartridge.from_ines (raw : List Nat) : Except CartridgeError Cartridge :=
  if raw.length < 16 then .error .TruncatedFile
  else if raw.take 4 ≠ INES_MAGIC then .error .InvalidHeader
  else
    let prg_rom_pages := raw.getD 4 0
    let chr_rom_pages := raw.getD 5 0
    let flags6 := raw.getD 6 0
    let flags7 := raw.getD 7 0
    let mapper_id := (flags7 &&& 0xF0) ||| (flags6 >>> 4)
    if mapper_id ≠ 0 then .error (.UnsupportedMapper mapper_id)
    else
      let mirroring :=
        if flags6 &&& 0x08 ≠ 0 then Mirroring.FourScreen
        else if flags6 &&& 0x01 ≠ 0 then Mirroring.Vertical
        else Mirroring.Horizontal
      let has_trainer := flags6 &&& 0x04 ≠ 0
      let prg_rom_size := prg_rom_pages * PRG_ROM_PAGE_SIZE
      let chr_rom_size := chr_rom_pages * CHR_ROM_PAGE_SIZE
      let offset := if has_trainer then 16 + TRAINER_SIZE else 16
      if raw.length < offset + prg_rom_size + chr_rom_size then .error .TruncatedFile
      else
        let prg_rom := (raw.drop offset).take prg_rom_size
        let chr_rom :=
          if chr_rom_size > 0 then (raw.drop (offset + prg_rom_size)).take chr_rom_size
          else List.replicate CHR_ROM_PAGE_SIZE 0
        .ok { prg_rom := prg_rom, chr_rom := chr_rom,
              mapper_id := mapper_id, mirroring := mirroring }

/-! ### Mapper 0 (src/cartridge/mapper.rs)

Only Mapper0 exists in scope (the loader rejects every nonzero mapper id),
so the Box of dyn Mapper held by the bus is modelled as a Mapper0 record. -/

structure Mapper0 where
  prg_rom : List Nat
  chr : List Nat
  mirroring : Mirroring
  prg_ram : List Nat
deriving DecidableEq

/-- Mapper0::new (src/cartridge/mapper.rs lines 30-37). -/
def Mapper0.new (prg_rom chr : List Nat) (mirroring : Mirroring) : Mapper0 :=
  { prg_rom := prg_rom, chr := chr, mirroring := mirroring,
    prg_ram := List.replicate 8192 0 }

/-- Mapper0::cpu_read (src/cartridge/mapper.rs lines 41-53); an out-of-range
Vec index (a Rust panic) is none. The prg_ram index is below 8192 by the
match arm, so it always succeeds. -/
def Mapper0.cpu_read (m : Mapper0) (addr : Nat) : Option Nat :=
  if 0x6000 ≤ addr ∧ addr ≤ 0x7FFF then m.prg_ram.get? (addr - 0x6000)
  else if 0x8000 ≤ addr ∧ addr ≤ 0xFFFF then
    let index := addr - 0x8000
    let index := if m.prg_rom.length = 16384 then index % 16384 else index
    m.prg_rom.get? index
  else some 0

/-- Mapper0::cpu_write (src/cartridge/mapper.rs lines 55-59). -/
def Mapper0.cpu_write (m : Mapper0) (addr val : Nat) : Mapper0 :=
  if 0x6000 ≤ addr ∧ addr ≤ 0x7FFF then
    { m with prg_ram := m.prg_ram.set (addr - 0x6000) val }
  else m

/-- Mapper0::chr_read (src/cartridge/mapper.rs lines 61-63): a direct Vec
index into CHR; out of range is a panic (none). -/
def Mapper0.chr_read (m : Mapper0) (addr : Nat) : Option Nat :=
  m.chr.get? addr

/-- Mapper0::chr_write (src/cartridge/mapper.rs lines 65-68): the source
stores the byte unconditionally (its comment claims CHR-RAM-only, but there
is no check); out of range is a panic (none). -/
def Mapper0.chr_write (m : Mapper0) (addr val : Nat) : Option Mapper0 :=
  if addr < m.chr.length then some { m with chr := m.chr.set addr val }
  else none

/-! ### PPU (src/ppu/mod.rs, src/ppu/registers.rs, src/ppu/render.rs)

PpuCtrl and PpuMask declare all eight bits, so they are kept as the raw
byte; PpuStatus declares only bits 5, 6, 7 and is a record of those three
flags. -/

/-- Modelled from the spec: the module src/ppu/frame.rs is declared
(pub mod frame) and used by ppu/mod.rs and render.rs but its file is not in
the source tree. The spec fixes the video boundary as a 256 x 240 RGB24
frame buffer, row major; the call sites use Frame::new(), frame.data (a
flat byte vector of length 256*240*3) and frame.set_pixel(x, y, rgb) with
rgb an (r, g, b) byte triple. -/
structure Frame where
  data : List Nat
deriving DecidableEq

/-- Modelled from the spec: Frame::new allocates the zeroed 256*240*3 byte
buffer. -/
def Frame.new : Frame :=
  { data := List.replicate (256 * 240 * 3) 0 }

/-- Modelled from the spec: set_pixel stores the RGB triple row major at
(y*256 + x)*3. Every call site keeps x < 256 and y < 240, so the store is
in range. -/
def Frame.set_pixel (f : Frame) (x y : Nat) (rgb : Nat × Nat × Nat) : Frame :=
  let base := (y * 256 + x) * 3
  { data := ((f.data.set base rgb.1).set (base + 1) rgb.2.1).set (base + 2) rgb.2.2 }

/-- Modelled from the spec: the 64-entry system palette lives in the missing
src/ppu/frame.rs. Its concrete RGB values determine only the bytes written
into the frame buffer (and the frame-buffer-based opacity oracle of
render.rs); no claim depends on them, and an all-zero table stands in. -/
def SYSTEM_PALETTE : List (Nat × Nat × Nat) :=
  List.replicate 64 (0, 0, 0)

structure PpuStatus where
  sprite_overflow : Bool
  sprite_zero_hit : Bool
  vblank : Bool
deriving DecidableEq

/-- PpuStatus::bits: SPRITE_OVERFLOW = 0x20, SPRITE_ZERO_HIT = 0x40,
VBLANK = 0x80. -/
def PpuStatus.bits (s : PpuStatus) : Nat :=
  (if s.sprite_overflow then 0x20 else 0) + (if s.sprite_zero_hit then 0x40 else 0) +
  (if s.vblank then 0x80 else 0)

/-- PpuCtrl::vram_increment (src/ppu/registers.rs lines 51-53): 32 when the
VRAM_INCREMENT bit (bit 2) is set, else 1. -/
def PpuCtrl.vram_increment (ctrl : Nat) : Nat :=
  if ctrl.testBit 2 then 32 else 1

structure Ppu where
  chr_rom : List Nat
  palette_ram : List Nat
  vram : List Nat
  oam : List Nat
  ctrl : Nat
  mask : Nat
  status : PpuStatus
  oam_addr : Nat
  v : Nat
  t : Nat
  fine_x : Nat
  w : Bool
  scroll_x : Nat
  scroll_y : Nat
  read_buffer : Nat
  scanline : Nat
  cycle : Nat
  frame_count : Nat
  nmi_pending : Bool
  frame : Frame
  mirroring : Mirroring
deriving DecidableEq

/-- Ppu::new (src/ppu/mod.rs lines 53-77). -/
def Ppu.new (chr_rom : List Nat) (mirroring : Mirroring) : Ppu :=
  { chr_rom := chr_rom, palette_ram := List.replicate 32 0,
    vram := List.replicate 2048 0, oam := List.replicate 256 0,
    ctrl := 0, mask := 0, status := ⟨false, false, false⟩, oam_addr := 0,
    v := 0, t := 0, fine_x := 0, w := false, scroll_x := 0, scroll_y := 0,
    read_buffer := 0, scanline := 0, cycle := 0, frame_count := 0,
    nmi_pending := false, frame := Frame.new, mirroring := mirroring }

/-- Ppu::mirror_vram_addr (src/ppu/mod.rs lines 324-342). -/
def Ppu.mirror_vram_addr (p : Ppu) (addr : Nat) : Nat :=
  let addr := (addr - 0x2000) &&& 0x0FFF
  let nametable := addr / 0x400
  let offset := addr % 0x400
  let mirrored_nt :=
    match p.mirroring with
    | .Horizontal => match nametable with
      | 0 => 0 | 1 => 0 | 2 => 1 | 3 => 1 | _ => 0
    | .Vertical => match nametable with
      | 0 => 0 | 2 => 0 | 1 => 1 | 3 => 1 | _ => 0
    | .FourScreen => nametable
  mirrored_nt * 0x400 + offset

/-- Ppu::palette_mirror (src/ppu/mod.rs lines 315-322). -/
def Ppu.palette_mirror (p : Ppu) (addr : Nat) : Nat :=
  let index := (addr - 0x3F00) &&& 0x1F
  if index = 0x10 ∨ index = 0x14 ∨ index = 0x18 ∨ index = 0x1C then index - 0x10
  else index

/-- Ppu::palette_read (src/ppu/mod.rs lines 305-308); the mirrored index is
masked below 32 = the palette_ram length, so the array index cannot fail. -/
def Ppu.palette_read (p : Ppu) (addr : Nat) : Nat :=
  p.palette_ram.getD (p.palette_mirror addr) 0

/-- Ppu::palette_write (src/ppu/mod.rs lines 310-313). -/
def Ppu.palette_write (p : Ppu) (addr val : Nat) : Ppu :=
  { p with palette_ram := p.palette_ram.set (p.palette_mirror addr) val }

/-- Ppu::internal_read (src/ppu/mod.rs lines 261-282); the vram index is an
unchecked array access that panics when mirror_vram_addr lands outside the
2 KiB array (none). -/
def Ppu.internal_read (p : Ppu) (addr : Nat) : Option Nat :=
  let addr := addr &&& 0x3FFF
  if addr ≤ 0x1FFF then
    some (if addr < p.chr_rom.length then p.chr_rom.getD addr 0 else 0)
  else if addr ≤ 0x3EFF then
    p.vram.get? (p.mirror_vram_addr addr)
  else
    some (p.palette_read addr)

/-- Ppu::internal_write (src/ppu/mod.rs lines 285-303); same panic
possibility on the vram index as internal_read. -/
def Ppu.internal_write (p : Ppu) (addr val : Nat) : Option Ppu :=
  let addr := addr &&& 0x3FFF
  if addr ≤ 0x1FFF then
    some (if addr < p.chr_rom.length then { p with chr_rom := p.chr_rom.set addr val } else p)
  else if addr ≤ 0x3EFF then
    if p.mirror_vram_addr addr < p.vram.length then
      some { p with vram := p.vram.set (p.mirror_vram_addr addr) val }
    else none
  else
    some (p.palette_write addr val)

/-- Ppu::cpu_read (src/ppu/mod.rs lines 159-192). Returns the byte and the
updated PPU; none models the panic reachable through internal_read. The OAM
index is a u8 into the 256-byte OAM, so it cannot fail. -/
def Ppu.cpu_read (p : Ppu) (addr : Nat) : Option (Nat × Ppu) :=
  if addr = 0x2002 then
    let val := p.status.bits ||| (p.read_buffer &&& 0x1F)
    some (val, { p with status := { p.status with vblank := false }, w := false })
  else if addr = 0x2004 then
    some (p.oam.getD p.oam_addr 0, p)
  else if addr = 0x2007 then
    let a := p.v
    let p1 := { p with v := ((p.v + PpuCtrl.vram_increment p.ctrl) % 65536) &&& 0x3FFF }
    if a ≥ 0x3F00 then
      match p1.internal_read (a - 0x1000) with
      | some b => some (p1.palette_read a, { p1 with read_buffer := b })
      | none => none
    else
      match p1.internal_read a with
      | some b => some (p1.read_buffer, { p1 with read_buffer := b })
      | none => none
  else some (0, p)

/-- Ppu::cpu_write (src/ppu/mod.rs lines 195-258); none models the panic
reachable through internal_write on the $2007 arm. -/
def Ppu.cpu_write (p : Ppu) (addr val : Nat) : Option Ppu :=
  if addr = 0x2000 then
    let was_nmi := p.ctrl.testBit 7
    let p1 := { p with ctrl := val }
    let p2 :=
      if ¬was_nmi ∧ val.testBit 7 ∧ p.status.vblank then { p1 with nmi_pending := true }
      else p1
    some { p2 with t := (p2.t &&& 0xF3FF) ||| ((val &&& 0x03) <<< 10) }
  else if addr = 0x2001 then some { p with mask := val }
  else if addr = 0x2003 then some { p with oam_addr := val }
  else if addr = 0x2004 then
    some { p with oam := p.oam.set p.oam_addr val, oam_addr := (p.oam_addr + 1) % 256 }
  else if addr = 0x2005 then
    if ¬p.w then
      some { p with
             scroll_x := val, fine_x := val &&& 0x07,
             t := (p.t &&& 0xFFE0) ||| (val >>> 3), w := true }
    else
      some { p with
             scroll_y := val,
             t := (p.t &&& 0x8C1F) ||| ((val &&& 0x07) <<< 12) ||| ((val >>> 3) <<< 5),
             w := false }
  else if addr = 0x2006 then
    if ¬p.w then
      some { p with t := (p.t &&& 0x00FF) ||| ((val &&& 0x3F) <<< 8), w := true }
    else
      let t1 := (p.t &&& 0xFF00) ||| val
      some { p with t := t1, v := t1, w := false }
  else if addr = 0x2007 then
    let a := p.v
    let p1 := { p with v := ((p.v + PpuCtrl.vram_increment p.ctrl) % 65536) &&& 0x3FFF }
    p1.internal_write a val
  else some p

/-- Ppu::rendering_enabled (src/ppu/mod.rs lines 79-81): SHOW_BG (bit 3) or
SHOW_SPR (bit 4) of PPUMASK. -/
def Ppu.rendering_enabled (p : Ppu) : Bool :=
  p.mask.testBit 3 || p.mask.testBit 4

/-- Ppu::increment_v_y (src/ppu/mod.rs lines 84-100). The u16 complements
are written as the masks 0x8FFF (for !0x7000) and 0xFC1F (for !0x03E0). -/
def Ppu.increment_v_y (p : Ppu) : Ppu :=
  if p.v &&& 0x7000 ≠ 0x7000 then
    { p with v := (p.v + 0x1000) % 65536 }
  else
    let v1 := p.v &&& 0x8FFF
    let coarse_y := (v1 &&& 0x03E0) >>> 5
    let cv : Nat × Nat :=
      if coarse_y = 29 then (0, v1 ^^^ 0x0800)
      else if coarse_y = 31 then (0, v1)
      else (coarse_y + 1, v1)
    { p with v := (cv.2 &&& 0xFC1F) ||| (cv.1 <<< 5) }

/-- Ppu::is_bg_pixel_opaque (src/ppu/render.rs lines 163-173). -/
def Ppu.is_bg_pixel_opaque (p : Ppu) (x y : Nat) : Bool :=
  let bg_color := SYSTEM_PALETTE.getD (p.palette_ram.getD 0 0 % 64) (0, 0, 0)
  let idx := (y * 256 + x) * 3
  if idx + 2 ≥ p.frame.data.length then false
  else
    decide ((p.frame.data.getD idx 0, p.frame.data.getD (idx + 1) 0,
      p.frame.data.getD (idx + 2) 0) ≠ bg_color)

/-- Ppu::render_bg_scanline (src/ppu/render.rs lines 20-76).  The pixel loop
is a foldlM because the three internal_read calls per pixel can hit the
vram out-of-bounds panic (none).  The scroll header values are extracted
from the state before the loop exactly as in the source; none of the
quantities overflow u16 (coarse_x*8 + fine_x + screen_x is at most 758). -/
def Ppu.render_bg_scanline (p : Ppu) (scanline : Nat) : Option Ppu :=
  let bg_table := if p.ctrl.testBit 4 then 0x1000 else 0x0000
  let show_left := p.mask.testBit 1
  let coarse_x_start := p.v &&& 0x001F
  let coarse_y := (p.v >>> 5) &&& 0x001F
  let fine_y := (p.v >>> 12) &&& 0x0007
  let nt_select := (p.v >>> 10) &&& 0x0003
  let nt_base_x := nt_select &&& 1
  let nt_base_y := (nt_select >>> 1) &&& 1
  let fine_x_start := p.fine_x
  (List.range 256).foldlM
    (fun st screen_x =>
      if ¬show_left ∧ screen_x < 8 then some st
      else
        let abs_x := coarse_x_start * 8 + fine_x_start + screen_x
        let tile_col := (abs_x / 8) &&& 0x1F
        let fine_x_pos := abs_x % 8
        let nt_x := nt_base_x ^^^ ((abs_x / 256) &&& 1)
        let nt_addr := 0x2000 + (nt_base_y * 2 + nt_x) * 0x0400 + coarse_y * 32 + tile_col
        (st.internal_read nt_addr).bind fun tile_index =>
          let pattern_addr := bg_table + tile_index * 16 + fine_y
          (st.internal_read pattern_addr).bind fun plane0 =>
            (st.internal_read (pattern_addr + 8)).bind fun plane1 =>
              let bit := 7 - fine_x_pos
              let color_lo := (plane0 >>> bit) &&& 1
              let color_hi := (plane1 >>> bit) &&& 1
              let pixel := (color_hi <<< 1) ||| color_lo
              let attr_base := 0x2000 + (nt_base_y * 2 + nt_x) * 0x0400 + 0x03C0
              let attr_addr := attr_base + (coarse_y / 4) * 8 + (tile_col / 4)
              (st.internal_read attr_addr).bind fun attr_byte =>
                let shift := ((coarse_y % 4) / 2 * 2 + (tile_col % 4) / 2) * 2
                let palette_index := (attr_byte >>> shift) &&& 0x03
                let color :=
                  if pixel = 0 then st.palette_ram.getD 0 0
                  else st.palette_ram.getD ((palette_index * 4 + pixel) &&& 0x1F) 0
                let rgb := SYSTEM_PALETTE.getD (color % 64) (0, 0, 0)
                some { st with frame := st.frame.set_pixel screen_x scanline rgb })
    p

/-- Ppu::render_sprite_scanline (src/ppu/render.rs lines 78-159).  The
forward evaluation pass (0..63 with break on the ninth in-range sprite) is a
fold carrying (selected indices, stopped flag, state); the stopped flag
models the break.  The render pass walks the selected slots in reverse; its
two pattern fetches per sprite go through internal_read (sprite pattern
addresses stay at or below 0x2007, but the panic possibility is kept). -/
def Ppu.render_sprite_scanline (p : Ppu) (scanline : Nat) : Option Ppu :=
  let sprite_table := if p.ctrl.testBit 3 then 0x1000 else 0x0000
  let sprite_height := if p.ctrl.testBit 5 then 16 else 8
  let show_left := p.mask.testBit 2
  let eval := (List.range 64).foldl
    (fun (acc : List Nat × Bool × Ppu) i =>
      if acc.2.1 then acc
      else
        let sprite_y := acc.2.2.oam.getD (i * 4) 0 + 1
        if scanline ≥ sprite_y ∧ scanline < sprite_y + sprite_height then
          if acc.1.length < 8 then (acc.1 ++ [i], false, acc.2.2)
          else (acc.1, true,
            { acc.2.2 with
              status := { acc.2.2.status with sprite_overflow := true } })
        else acc)
    ([], false, p)
  (eval.1.reverse).foldlM
    (fun st i =>
      let oam_offset := i * 4
      let sprite_y := st.oam.getD oam_offset 0 + 1
      let tile_index := st.oam.getD (oam_offset + 1) 0
      let attributes := st.oam.getD (oam_offset + 2) 0
      let sprite_x := st.oam.getD (oam_offset + 3) 0
      let flip_h := decide (attributes &&& 0x40 ≠ 0)
      let flip_v := decide (attributes &&& 0x80 ≠ 0)
      let behind_bg := decide (attributes &&& 0x20 ≠ 0)
      let palette_index := (attributes &&& 0x03) + 4
      let row0 := scanline - sprite_y
      let row := if flip_v then (sprite_height - 1) - row0 else row0
      let pattern_addr := sprite_table + tile_index * 16 + row
      (st.internal_read pattern_addr).bind fun plane0 =>
        (st.internal_read (pattern_addr + 8)).bind fun plane1 =>
          some ((List.range 8).foldl
            (fun st2 col =>
              let bit := if flip_h then col else 7 - col
              let color_lo := (plane0 >>> bit) &&& 1
              let color_hi := (plane1 >>> bit) &&& 1
              let pixel := (color_hi <<< 1) ||| color_lo
              if pixel = 0 then st2
              else
                let px := (sprite_x + col) % 65536
                if px ≥ 256 then st2
                else if ¬show_left ∧ px < 8 then st2
                else
                  let st3 :=
                    if i = 0 ∧ px < 255 ∧ st2.is_bg_pixel_opaque px scanline then
                      { st2 with
                        status := { st2.status with sprite_zero_hit := true } }
                    else st2
                  if behind_bg ∧ st3.is_bg_pixel_opaque px scanline then st3
                  else
                    let color := st3.palette_ram.getD
                      ((palette_index * 4 + pixel) &&& 0x1F) 0
                    let rgb := SYSTEM_PALETTE.getD (color % 64) (0, 0, 0)
                    { st3 with frame := st3.frame.set_pixel px scanline rgb })
            st))
    eval.2.2

/-- Ppu::render_scanline (src/ppu/render.rs lines 5-18): clear the scanline
to the universal background color, then the background and sprite passes
gated on the PPUMASK bits. -/
def Ppu.render_scanline (p : Ppu) (scanline : Nat) : Option Ppu :=
  let bg_color := SYSTEM_PALETTE.getD (p.palette_ram.getD 0 0 % 64) (0, 0, 0)
  let p1 := (List.range 256).foldl
    (fun st x => { st with frame := st.frame.set_pixel x scanline bg_color }) p
  (if p1.mask.testBit 3 then p1.render_bg_scanline scanline else some p1).bind
    fun p2 =>
      if p2.mask.testBit 4 then p2.render_sprite_scanline scanline else some p2

/-- The scroll-register updates of Ppu::tick (src/ppu/mod.rs lines 113-127):
at cycle 256 increment fine Y, at 257 copy the horizontal bits of t into v,
and on pre-render cycles 280..304 copy the vertical bits, all gated on
(visible or pre-render) and rendering enabled.  The u16 complements are the
masks 0xFBE0 (!0x041F) and 0x841F (!0x7BE0). -/
def Ppu.tick_scroll (visible pre_render : Bool) (q : Ppu) : Ppu :=
  if (visible || pre_render) && q.rendering_enabled then
    let q1 := if q.cycle = 256 then q.increment_v_y else q
    let q2 :=
      if q1.cycle = 257 then { q1 with v := (q1.v &&& 0xFBE0) ||| (q1.t &&& 0x041F) }
      else q1
    if pre_render ∧ 280 ≤ q2.cycle ∧ q2.cycle ≤ 304 then
      { q2 with v := (q2.v &&& 0x841F) ||| (q2.t &&& 0x7BE0) }
    else q2
  else q

/-- The status-flag updates of Ppu::tick (src/ppu/mod.rs lines 129-143): at
pre-render cycle 1 clear VBLANK, SPRITE_ZERO_HIT and SPRITE_OVERFLOW; at
scanline 241 cycle 1 set VBLANK, raise nmi_pending when PPUCTRL bit 7 is
set, and report the frame complete. -/
def Ppu.tick_flags (pre_render : Bool) (q : Ppu) : Bool × Ppu :=
  let q1 :=
    if pre_render ∧ q.cycle = 1 then
      { q with
        status := { q.status with
          vblank := false, sprite_zero_hit := false, sprite_overflow := false } }
    else q
  if q1.scanline = 241 ∧ q1.cycle = 1 then
    (true, { q1 with
      status := { q1.status with vblank := true },
      nmi_pending := if q1.ctrl.testBit 7 then true else q1.nmi_pending })
  else (false, q1)

/-- The counter advance of Ppu::tick (src/ppu/mod.rs lines 145-153):
cycle += 1, wrapping 340 to 0 while advancing scanline, which wraps 261 to
0 while advancing frame_count. The u64 frame counter is modelled as an
unbounded Nat; nothing in the program observes its 2^64 wraparound. -/
def Ppu.tick_advance (frame_complete : Bool) (q : Ppu) : Bool × Ppu :=
  let cycle := (q.cycle + 1) % 65536
  if cycle > 340 then
    let scanline := (q.scanline + 1) % 65536
    if scanline > 261 then
      (frame_complete, { q with cycle := 0, scanline := 0, frame_count := q.frame_count + 1 })
    else (frame_complete, { q with cycle := 0, scanline := scanline })
  else (frame_complete, { q with cycle := cycle })

/-- Ppu::tick (src/ppu/mod.rs lines 102-156), in the order of the source:
the visible and pre-render tests come from the incoming state; the renderer
runs at cycle 0 of visible scanlines and can panic (none, see render
above); then the scroll updates, the flag updates and the counter advance,
which never read the fields the earlier stages modify.  Returns the
frame-complete flag and the successor state. -/
def Ppu.tick (p : Ppu) : Option (Bool × Ppu) :=
  (if p.scanline < 240 ∧ p.cycle = 0 then p.render_scanline p.scanline else some p).map
    (fun q =>
      let r := Ppu.tick_flags (decide (p.scanline = 261))
        (Ppu.tick_scroll (decide (p.scanline < 240)) (decide (p.scanline = 261)) q)
      Ppu.tick_advance r.1 r.2)

/-- k successive Ppu::tick calls, propagating the panic. -/
def Ppu.tickN : Nat → Ppu → Option Ppu
  | 0, p => some p
  | n + 1, p => (p.tick).bind fun r => Ppu.tickN n r.2

/-- Linearization of the (scanline, cycle) lattice point, row major. -/
def Ppu.toIdx (p : Ppu) : Nat :=
  p.scanline * 341 + p.cycle

/-- The PPU fields that the renderer never writes and the tick counter
logic and the panic analysis depend on: the renderer only writes frame and
status, so these stay equal to the reference state p. -/
def RenderInv (p st : Ppu) : Prop :=
  st.cycle = p.cycle ∧ st.scanline = p.scanline ∧ st.frame_count = p.frame_count ∧
  st.mirroring = p.mirroring ∧ st.vram = p.vram

/-! ### APU channels (src/apu/pulse.rs, triangle.rs, noise.rs) -/

def LENGTH_TABLE : List Nat :=
  [10, 254, 20, 2, 40, 4, 80, 6, 160, 8, 60, 10, 14, 12, 26, 14,
   12, 16, 24, 18, 48, 20, 96, 22, 192, 24, 72, 26, 16, 28, 32, 30]

/-- u16 wrapping subtraction; both operands are u16 values (below 65536). -/
def wrappingSub16 (a b : Nat) : Nat :=
  (a + 65536 - b % 65536) % 65536

structure Pulse where
  enabled : Bool
  channel : Nat
  duty_mode : Nat
  duty_pos : Nat
  timer_period : Nat
  timer_counter : Nat
  length_counter : Nat
  length_halt : Bool
  envelope_start : Bool
  envelope_loop : Bool
  constant_volume : Bool
  envelope_period : Nat
  envelope_divider : Nat
  envelope_decay : Nat
  sweep_enabled : Bool
  sweep_period : Nat
  sweep_negate : Bool
  sweep_shift : Nat
  sweep_divider : Nat
  sweep_reload : Bool
deriving DecidableEq

/-- Pulse::new (src/apu/pulse.rs lines 47-70). -/
def Pulse.new (channel : Nat) : Pulse :=
  { enabled := false, channel := channel, duty_mode := 0, duty_pos := 0,
    timer_period := 0, timer_counter := 0, length_counter := 0,
    length_halt := false, envelope_start := false, envelope_loop := false,
    constant_volume := false, envelope_period := 0, envelope_divider := 0,
    envelope_decay := 0, sweep_enabled := false, sweep_period := 0,
    sweep_negate := false, sweep_shift := 0, sweep_divider := 0,
    sweep_reload := false }

/-- Pulse::write_control (src/apu/pulse.rs lines 73-79). -/
def Pulse.write_control (p : Pulse) (val : Nat) : Pulse :=
  { p with
    duty_mode := (val >>> 6) &&& 3,
    length_halt := decide (val &&& 0x20 ≠ 0), envelope_loop := decide (val &&& 0x20 ≠ 0),
    constant_volume := decide (val &&& 0x10 ≠ 0), envelope_period := val &&& 0x0F }

/-- Pulse::write_sweep (src/apu/pulse.rs lines 82-88). -/
def Pulse.write_sweep (p : Pulse) (val : Nat) : Pulse :=
  { p with
    sweep_enabled := decide (val &&& 0x80 ≠ 0), sweep_period := (val >>> 4) &&& 7,
    sweep_negate := decide (val &&& 0x08 ≠ 0), sweep_shift := val &&& 7,
    sweep_reload := true }

/-- Pulse::write_timer_lo (src/apu/pulse.rs lines 91-93). -/
def Pulse.write_timer_lo (p : Pulse) (val : Nat) : Pulse :=
  { p with timer_period := (p.timer_period &&& 0x0700) ||| (val % 256) }

/-- Pulse::write_timer_hi (src/apu/pulse.rs lines 96-103); the length table
index val >> 3 is below 32 for a byte, so getD cannot take its default. -/
def Pulse.write_timer_hi (p : Pulse) (val : Nat) : Pulse :=
  { p with
    timer_period := (p.timer_period &&& 0x00FF) ||| ((val &&& 7) <<< 8),
    length_counter := if p.enabled then LENGTH_TABLE.getD ((val % 256) >>> 3) 0
    else p.length_counter,
    duty_pos := 0, envelope_start := true }

/-- Pulse::tick_timer (src/apu/pulse.rs lines 106-113). -/
def Pulse.tick_timer (p : Pulse) : Pulse :=
  if p.timer_counter = 0 then
    { p with timer_counter := p.timer_period, duty_pos := (p.duty_pos + 1) &&& 7 }
  else
    { p with timer_counter := p.timer_counter - 1 }

/-- Pulse::tick_envelope (src/apu/pulse.rs lines 116-131). -/
def Pulse.tick_envelope (p : Pulse) : Pulse :=
  if p.envelope_start then
    { p with
      envelope_start := false, envelope_decay := 15,
      envelope_divider := p.envelope_period }
  else if p.envelope_divider = 0 then
    { p with
      envelope_divider := p.envelope_period,
      envelope_decay :=
      if p.envelope_decay > 0 then p.envelope_decay - 1
      else if p.envelope_loop then 15 else p.envelope_decay }
  else
    { p with envelope_divider := p.envelope_divider - 1 }

/-- Pulse::sweep_target_period (src/apu/pulse.rs lines 156-169). -/
def Pulse.sweep_target_period (p : Pulse) : Nat :=
  let shift := p.timer_period >>> p.sweep_shift
  if p.sweep_negate then
    if p.channel = 0 then wrappingSub16 (wrappingSub16 p.timer_period shift) 1
    else wrappingSub16 p.timer_period shift
  else (p.timer_period + shift) % 65536

/-- Pulse::tick_sweep (src/apu/pulse.rs lines 134-147). -/
def Pulse.tick_sweep (p : Pulse) : Pulse :=
  let target := p.sweep_target_period
  let p1 :=
    if p.sweep_divider = 0 ∧ p.sweep_enabled ∧ p.sweep_shift > 0
        ∧ p.timer_period ≥ 8 ∧ target ≤ 0x7FF then
      { p with timer_period := target }
    else p
  if p1.sweep_divider = 0 ∨ p1.sweep_reload then
    { p1 with sweep_divider := p1.sweep_period, sweep_reload := false }
  else
    { p1 with sweep_divider := p1.sweep_divider - 1 }

/-- Pulse::tick_length (src/apu/pulse.rs lines 150-154). -/
def Pulse.tick_length (p : Pulse) : Pulse :=
  if ¬p.length_halt ∧ p.length_counter > 0 then
    { p with length_counter := p.length_counter - 1 }
  else p

structure Triangle where
  enabled : Bool
  timer_period : Nat
  timer_counter : Nat
  seq_pos : Nat
  length_counter : Nat
  length_halt : Bool
  linear_counter : Nat
  linear_period : Nat
  linear_reload : Bool
deriving DecidableEq

/-- Triangle::new (src/apu/triangle.rs lines 30-42). -/
def Triangle.new : Triangle :=
  { enabled := false, timer_period := 0, timer_counter := 0, seq_pos := 0,
    length_counter := 0, length_halt := false, linear_counter := 0,
    linear_period := 0, linear_reload := false }

/-- Triangle::write_linear (src/apu/triangle.rs lines 45-48). -/
def Triangle.write_linear (t : Triangle) (val : Nat) : Triangle :=
  { t with length_halt := decide (val &&& 0x80 ≠ 0), linear_period := val &&& 0x7F }

/-- Triangle::write_timer_lo (src/apu/triangle.rs lines 51-53). -/
def Triangle.write_timer_lo (t : Triangle) (val : Nat) : Triangle :=
  { t with timer_period := (t.timer_period &&& 0x0700) ||| (val % 256) }

/-- Triangle::write_timer_hi (src/apu/triangle.rs lines 56-62). -/
def Triangle.write_timer_hi (t : Triangle) (val : Nat) : Triangle :=
  { t with
    timer_period := (t.timer_period &&& 0x00FF) ||| ((val &&& 7) <<< 8),
    length_counter := if t.enabled then LENGTH_TABLE.getD ((val % 256) >>> 3) 0
    else t.length_counter,
    linear_reload := true }

/-- Triangle::tick_timer (src/apu/triangle.rs lines 65-74). -/
def Triangle.tick_timer (t : Triangle) : Triangle :=
  if t.timer_counter = 0 then
    { t with
      timer_counter := t.timer_period,
      seq_pos := if t.length_counter > 0 ∧ t.linear_counter > 0
      then (t.seq_pos + 1) &&& 31 else t.seq_pos }
  else
    { t with timer_counter := t.timer_counter - 1 }

/-- Triangle::tick_linear (src/apu/triangle.rs lines 77-86). -/
def Triangle.tick_linear (t : Triangle) : Triangle :=
  let t1 :=
    if t.linear_reload then { t with linear_counter := t.linear_period }
    else if t.linear_counter > 0 then { t with linear_counter := t.linear_counter - 1 }
    else t
  if ¬t1.length_halt then { t1 with linear_reload := false } else t1

/-- Triangle::tick_length (src/apu/triangle.rs lines 89-93). -/
def Triangle.tick_length (t : Triangle) : Triangle :=
  if ¬t.length_halt ∧ t.length_counter > 0 then
    { t with length_counter := t.length_counter - 1 }
  else t

def NOISE_PERIOD_TABLE : List Nat :=
  [4, 8, 16, 32, 64, 96, 128, 160, 202, 254, 380, 508, 762, 1016, 2034, 4068]

structure Noise where
  enabled : Bool
  timer_period : Nat
  timer_counter : Nat
  shift_register : Nat
  mode : Bool
  length_counter : Nat
  length_halt : Bool
  envelope_start : Bool
  envelope_loop : Bool
  constant_volume : Bool
  envelope_period : Nat
  envelope_divider : Nat
  envelope_decay : Nat
deriving DecidableEq

/-- Noise::new (src/apu/noise.rs lines 32-48): shift_register starts at 1. -/
def Noise.new : Noise :=
  { enabled := false, timer_period := 0, timer_counter := 0,
    shift_register := 1, mode := false, length_counter := 0,
    length_halt := false, envelope_start := false, envelope_loop := false,
    constant_volume := false, envelope_period := 0, envelope_divider := 0,
    envelope_decay := 0 }

/-- Noise::write_control (src/apu/noise.rs lines 51-56). -/
def Noise.write_control (n : Noise) (val : Nat) : Noise :=
  { n with
    length_halt := decide (val &&& 0x20 ≠ 0),
    envelope_loop := decide (val &&& 0x20 ≠ 0),
    constant_volume := decide (val &&& 0x10 ≠ 0),
    envelope_period := val &&& 0x0F }

/-- Noise::write_period (src/apu/noise.rs lines 59-62); the period-table
index is masked below 16 = the table length. -/
def Noise.write_period (n : Noise) (val : Nat) : Noise :=
  { n with
    mode := decide (val &&& 0x80 ≠ 0),
    timer_period := NOISE_PERIOD_TABLE.getD (val &&& 0x0F) 0 }

/-- Noise::write_length (src/apu/noise.rs lines 65-70). -/
def Noise.write_length (n : Noise) (val : Nat) : Noise :=
  { n with
    length_counter := if n.enabled then LENGTH_TABLE.getD ((val % 256) >>> 3) 0
    else n.length_counter,
    envelope_start := true }

/-- Noise::tick_timer (src/apu/noise.rs lines 73-84): on timer underflow the
15-bit LFSR clocks with feedback = bit 0 xor bit (6 when mode else 1),
shifts right one, and inserts the feedback at bit 14. -/
def Noise.tick_timer (n : Noise) : Noise :=
  if n.timer_counter = 0 then
    let feedback_bit := if n.mode then 6 else 1
    let feedback := (n.shift_register &&& 1) ^^^ ((n.shift_register >>> feedback_bit) &&& 1)
    { n with
      timer_counter := n.timer_period,
      shift_register := (n.shift_register >>> 1) ||| (feedback <<< 14) }
  else
    { n with timer_counter := n.timer_counter - 1 }

/-- Noise::tick_envelope (src/apu/noise.rs lines 87-102). -/
def Noise.tick_envelope (n : Noise) : Noise :=
  if n.envelope_start then
    { n with
      envelope_start := false, envelope_decay := 15,
      envelope_divider := n.envelope_period }
  else if n.envelope_divider = 0 then
    { n with
      envelope_divider := n.envelope_period,
      envelope_decay :=
      if n.envelope_decay > 0 then n.envelope_decay - 1
      else if n.envelope_loop then 15 else n.envelope_decay }
  else
    { n with envelope_divider := n.envelope_divider - 1 }

/-- Noise::tick_length (src/apu/noise.rs lines 105-109). -/
def Noise.tick_length (n : Noise) : Noise :=
  if ¬n.length_halt ∧ n.length_counter > 0 then
    { n with length_counter := n.length_counter - 1 }
  else n

/-- The mutating operations of the Noise channel: the three register writes
($400C, $400E, $400F), the timer clock, and the quarter- and half-frame
clocks. -/
inductive NoiseOp where
  | writeControl (val : Nat)
  | writePeriod (val : Nat)
  | writeLength (val : Nat)
  | tickTimer
  | tickEnvelope
  | tickLength

def applyNoiseOp (op : NoiseOp) (n : Noise) : Noise :=
  match op with
  | .writeControl v => n.write_control v
  | .writePeriod v => n.write_period v
  | .writeLength v => n.write_length v
  | .tickTimer => n.tick_timer
  | .tickEnvelope => n.tick_envelope
  | .tickLength => n.tick_length

/-! ### APU (src/apu/mod.rs)

The floating-point mixer and downsampler (sample_accumulator, sample_count,
cycle_fraction, sample_buffer) are not modelled: no embedded operation reads
them and no claim concerns them. -/

structure Apu where
  pulse1 : Pulse
  pulse2 : Pulse
  triangle : Triangle
  noise : Noise
  frame_counter_mode : Nat
  frame_counter : Nat
  irq_inhibit : Bool
  odd_cycle : Bool
deriving DecidableEq

/-- Apu::new (src/apu/mod.rs lines 39-54). -/
def Apu.new : Apu :=
  { pulse1 := Pulse.new 0, pulse2 := Pulse.new 1, triangle := Triangle.new,
    noise := Noise.new, frame_counter_mode := 0, frame_counter := 0,
    irq_inhibit := true, odd_cycle := false }

/-- Apu::quarter_frame (src/apu/mod.rs lines 124-129). -/
def Apu.quarter_frame (a : Apu) : Apu :=
  { a with
    pulse1 := a.pulse1.tick_envelope, pulse2 := a.pulse2.tick_envelope,
    triangle := a.triangle.tick_linear, noise := a.noise.tick_envelope }

/-- Apu::half_frame (src/apu/mod.rs lines 131-138). -/
def Apu.half_frame (a : Apu) : Apu :=
  { a with
    pulse1 := a.pulse1.tick_length.tick_sweep,
    pulse2 := a.pulse2.tick_length.tick_sweep,
    triangle := a.triangle.tick_length, noise := a.noise.tick_length }

/-- Apu::clock_4step (src/apu/mod.rs lines 96-108). -/
def Apu.clock_4step (a : Apu) : Apu :=
  if a.frame_counter = 3729 then a.quarter_frame
  else if a.frame_counter = 7457 then a.quarter_frame.half_frame
  else if a.frame_counter = 11186 then a.quarter_frame
  else if a.frame_counter = 14915 then { a.quarter_frame.half_frame with frame_counter := 0 }
  else a

/-- Apu::clock_5step (src/apu/mod.rs lines 110-122). -/
def Apu.clock_5step (a : Apu) : Apu :=
  if a.frame_counter = 3729 then a.quarter_frame
  else if a.frame_counter = 7457 then a.quarter_frame.half_frame
  else if a.frame_counter = 11186 then a.quarter_frame
  else if a.frame_counter = 18641 then { a.quarter_frame.half_frame with frame_counter := 0 }
  else a

/-- Apu::clock_frame_counter (src/apu/mod.rs lines 88-94). -/
def Apu.clock_frame_counter (a : Apu) : Apu :=
  if a.frame_counter_mode = 0 then a.clock_4step
  else if a.frame_counter_mode = 1 then a.clock_5step
  else a

/-- The frame-sequencer portion of Apu::tick (src/apu/mod.rs lines 69-71):
frame_counter += 1 followed by clock_frame_counter. The preceding timer
clocks and the following mixer do not read or write frame_counter. The u16
counter cannot overflow: it is cleared at 14915 / 18641 and by every $4017
write, so it never reaches 65535. -/
def Apu.frame_step (a : Apu) : Apu :=
  Apu.clock_frame_counter { a with frame_counter := a.frame_counter + 1 }

/-- Apu::write_status, the $4015 write (src/apu/mod.rs lines 185-195). -/
def Apu.write_status (a : Apu) (val : Nat) : Apu :=
  let a1 := { a with
    pulse1 := { a.pulse1 with enabled := decide (val &&& 0x01 ≠ 0) },
    pulse2 := { a.pulse2 with enabled := decide (val &&& 0x02 ≠ 0) },
    triangle := { a.triangle with enabled := decide (val &&& 0x04 ≠ 0) },
    noise := { a.noise with enabled := decide (val &&& 0x08 ≠ 0) } }
  { a1 with
    pulse1 := if ¬a1.pulse1.enabled then { a1.pulse1 with length_counter := 0 } else a1.pulse1,
    pulse2 := if ¬a1.pulse2.enabled then { a1.pulse2 with length_counter := 0 } else a1.pulse2,
    triangle := if ¬a1.triangle.enabled then { a1.triangle with length_counter := 0 } else a1.triangle,
    noise := if ¬a1.noise.enabled then { a1.noise with length_counter := 0 } else a1.noise }

/-- Apu::read_status, the $4015 read (src/apu/mod.rs lines 198-205). -/
def Apu.read_status (a : Apu) : Nat :=
  (if a.pulse1.length_counter > 0 then 0x01 else 0) |||
  (if a.pulse2.length_counter > 0 then 0x02 else 0) |||
  (if a.triangle.length_counter > 0 then 0x04 else 0) |||
  (if a.noise.length_counter > 0 then 0x08 else 0)

/-- Apu::write_frame_counter, the $4017 write (src/apu/mod.rs lines 208-217):
mode from bit 7, IRQ inhibit from bit 6, counter reset to 0, and in 5-step
mode an immediate quarter- plus half-frame clock. -/
def Apu.write_frame_counter (a : Apu) (val : Nat) : Apu :=
  let a1 := { a with
              frame_counter_mode := (val >>> 7) &&& 1,
              irq_inhibit := decide (val &&& 0x40 ≠ 0), frame_counter := 0 }
  if a1.frame_counter_mode = 1 then a1.quarter_frame.half_frame else a1

/-- Apu::cpu_write for $4000-$4013 (src/apu/mod.rs lines 164-182). -/
def Apu.cpu_write (a : Apu) (addr val : Nat) : Apu :=
  if addr = 0x4000 then { a with pulse1 := a.pulse1.write_control val }
  else if addr = 0x4001 then { a with pulse1 := a.pulse1.write_sweep val }
  else if addr = 0x4002 then { a with pulse1 := a.pulse1.write_timer_lo val }
  else if addr = 0x4003 then { a with pulse1 := a.pulse1.write_timer_hi val }
  else if addr = 0x4004 then { a with pulse2 := a.pulse2.write_control val }
  else if addr = 0x4005 then { a with pulse2 := a.pulse2.write_sweep val }
  else if addr = 0x4006 then { a with pulse2 := a.pulse2.write_timer_lo val }
  else if addr = 0x4007 then { a with pulse2 := a.pulse2.write_timer_hi val }
  else if addr = 0x4008 then { a with triangle := a.triangle.write_linear val }
  else if addr = 0x400A then { a with triangle := a.triangle.write_timer_lo val }
  else if addr = 0x400B then { a with triangle := a.triangle.write_timer_hi val }
  else if addr = 0x400C then { a with noise := a.noise.write_control val }
  else if addr = 0x400E then { a with noise := a.noise.write_period val }
  else if addr = 0x400F then { a with noise := a.noise.write_length val }
  else a

/-! ### Controller (src/controller.rs) -/

structure Controller where
  buttons : Nat
  strobe : Bool
  shift_register : Nat
deriving DecidableEq

/-- Controller::new (src/controller.rs lines 24-30). -/
def Controller.new : Controller :=
  { buttons := 0, strobe := false, shift_register := 0 }

/-- Controller::write (src/controller.rs lines 32-41): bit 0 set enters
strobe mode; on the 1 to 0 transition the live buttons latch into the shift
register. -/
def Controller.write (c : Controller) (val : Nat) : Controller :=
  if val &&& 1 = 1 then { c with strobe := true }
  else if c.strobe then { c with shift_register := c.buttons, strobe := false }
  else { c with strobe := false }

/-- Controller::read (src/controller.rs lines 43-50): in strobe mode returns
the live A button; otherwise returns bit 0 of the shift register and shifts
it right. -/
def Controller.read (c : Controller) : Nat × Controller :=
  if c.strobe then (c.buttons &&& 1, c)
  else (c.shift_register &&& 1, { c with shift_register := c.shift_register >>> 1 })

/-- The byte produced by the (k+1)-th read after state c (k prior reads
consumed). -/
def Controller.readOut (c : Controller) (k : Nat) : Nat :=
  (Controller.read ((fun st => (Controller.read st).2)^[k] c)).1

/-! ### Bus (src/bus.rs) -/

structure Bus where
  ram : List Nat
  ppu : Ppu
  apu : Apu
  mapper : Mapper0
  controller1 : Controller
  controller2 : Controller
  cycles : Nat
deriving DecidableEq

/-- Bus::new (src/bus.rs lines 22-40): the PPU receives a clone of the
cartridge CHR bytes, the mapper receives the original; the sample-buffer
argument (audio ring buffer) is not modelled. -/
def Bus.new (cartridge : Cartridge) : Bus :=
  { ram := List.replicate 2048 0,
    ppu := Ppu.new cartridge.chr_rom cartridge.mirroring,
    apu := Apu.new,
    mapper := Mapper0.new cartridge.prg_rom cartridge.chr_rom cartridge.mirroring,
    controller1 := Controller.new, controller2 := Controller.new, cycles := 0 }

/-- Bus::cpu_read (src/bus.rs lines 42-54); none models a panic forwarded
from the PPU or mapper. The RAM index is masked below 2048. -/
def Bus.cpu_read (b : Bus) (addr : Nat) : Option (Nat × Bus) :=
  if addr ≤ 0x1FFF then (b.ram.get? (addr &&& 0x07FF)).map (fun v => (v, b))
  else if addr ≤ 0x3FFF then
    (b.ppu.cpu_read (0x2000 + (addr &&& 0x07))).map (fun r => (r.1, { b with ppu := r.2 }))
  else if addr = 0x4014 then some (0, b)
  else if addr = 0x4015 then some (b.apu.read_status, b)
  else if addr = 0x4016 then
    let r := b.controller1.read
    some (r.1, { b with controller1 := r.2 })
  else if addr = 0x4017 then
    let r := b.controller2.read
    some (r.1, { b with controller2 := r.2 })
  else if addr ≤ 0x4017 then some (0, b)
  else if addr ≤ 0x401F then some (0, b)
  else (b.mapper.cpu_read addr).map (fun v => (v, b))

/-- Bus::oam_dma (src/bus.rs lines 70-77): copies 256 bytes read through the
bus from page << 8 into OAM starting at oam_addr, wrapping within OAM. -/
def Bus.oam_dma (b : Bus) (page : Nat) : Option Bus :=
  (List.range 256).foldlM
    (fun st i => do
      let r ← st.cpu_read (((page % 256) <<< 8) + i)
      pure { r.2 with
             ppu := { r.2.ppu with
             oam := r.2.ppu.oam.set ((r.2.ppu.oam_addr + i) % 256) r.1 } })
    b

/-- Bus::cpu_write (src/bus.rs lines 56-68). -/
def Bus.cpu_write (b : Bus) (addr val : Nat) : Option Bus :=
  if addr ≤ 0x1FFF then some { b with ram := b.ram.set (addr &&& 0x07FF) val }
  else if addr ≤ 0x3FFF then
    (b.ppu.cpu_write (0x2000 + (addr &&& 0x07)) val).map (fun p => { b with ppu := p })
  else if addr = 0x4014 then b.oam_dma val
  else if addr ≤ 0x4013 then some { b with apu := b.apu.cpu_write addr val }
  else if addr = 0x4015 then some { b with apu := b.apu.write_status val }
  else if addr = 0x4016 then some { b with controller1 := b.controller1.write val }
  else if addr = 0x4017 then some { b with apu := b.apu.write_frame_counter val }
  else if addr ≤ 0x401F then some b
  else some { b with mapper := b.mapper.cpu_write addr val }

/-! ### Concrete ROM images used by the loader-level claims -/

/-- A minimal iNES image whose flags6 has bit 3 set (four-screen mirroring),
mapper 0, zero PRG and CHR pages (so 8 KiB of CHR RAM is allocated). -/
def fourScreenTestImage : List Nat :=
  [0x4E, 0x45, 0x53, 0x1A, 0, 0, 0x08, 0, 0, 0, 0, 0, 0, 0, 0, 0]

/-- A minimal iNES image with one CHR ROM page of 0x11 bytes and zero PRG
pages, mapper 0, horizontal mirroring. -/
def chrRomTestImage : List Nat :=
  [0x4E, 0x45, 0x53, 0x1A, 0, 1, 0, 0, 0, 0, 0, 0, 0, 0, 0, 0]
    ++ List.replicate 8192 0x11

/-- A sample parsed cartridge with 8 KiB of CHR RAM, used by witnesses. -/
def chrRamCart : Cartridge :=
  { prg_rom := [], chr_rom := List.replicate 8192 0, mapper_id := 0,
    mirroring := Mirroring.Horizontal }

/-- A reachable FourScreen PPU state: from power-on, the CPU writes
$2001 := 0x08 (SHOW_BG) and then $2006 := 0x2C, $2006 := 0x00, leaving
v = t = 0x2C00.  Used as the counterexample state of C6. -/
def fourScreenTickState : Ppu :=
  { Ppu.new (List.replicate 8192 0) Mirroring.FourScreen with
    mask := 0x08, t := 0x2C00, v := 0x2C00 }

/-! ### Helper lemmas -/

/-- For bytes, testing bit 7 is the same as being at least 128. -/
theorem and_hi_bit_iff : ∀ r < 256, (r &&& 0x80 ≠ 0 ↔ 128 ≤ r) := by decide

/-- The packed status byte is below 256. -/
theorem CpuFlags.bits_lt (s : CpuFlags) : s.bits < 256 := by
  obtain ⟨c, z, i, d, b, b2, v, n⟩ := s
  unfold CpuFlags.bits
  cases c <;> cases z <;> cases i <;> cases d <;> cases b <;> cases b2 <;>
    cases v <;> cases n <;> decide

/-- Packing after unpacking a byte with bit 5 forced gives the byte with
bit 5 ored in. -/
theorem bits_fromBits_or20 :
    ∀ n < 256, ({ CpuFlags.fromBitsTruncate n with break2 := true } : CpuFlags).bits
      = n ||| 0x20 := by decide

/-- Bit 5 of the packed byte is the break2 flag. -/
theorem CpuFlags.bits_testBit5 (s : CpuFlags) : s.bits.testBit 5 = s.break2 := by
  obtain ⟨c, z, i, d, b, b2, v, n⟩ := s
  unfold CpuFlags.bits
  cases c <;> cases z <;> cases i <;> cases d <;> cases b <;> cases b2 <;>
    cases v <;> cases n <;> decide

/-- Every status write path preserves a set break2 flag. -/
theorem applyStatusOp_break2 (op : StatusOp) (s : CpuFlags) (h : s.break2 = true) :
    (applyStatusOp op s).break2 = true := by
  cases op <;> simp [applyStatusOp, h]

/-- Folding any sequence of status write paths preserves a set break2 flag. -/
theorem foldl_statusOp_break2 (ops : List StatusOp) (s : CpuFlags) (h : s.break2 = true) :
    (ops.foldl (fun t op => applyStatusOp op t) s).break2 = true := by
  induction ops generalizing s with
  | nil => exact h
  | cons op rest ih => exact ih _ (applyStatusOp_break2 op s h)

/-- Evaluation of the loader on the four-screen test image: it is accepted,
with FourScreen mirroring and 8 KiB of CHR RAM. -/
theorem from_ines_fourScreenTestImage :
    Cartridge.from_ines fourScreenTestImage
      = .ok { prg_rom := [], chr_rom := List.replicate 8192 0,
              mapper_id := 0, mirroring := Mirroring.FourScreen } := rfl

/-- On a nametable address, internal_read is the vram lookup at the mirrored
index. -/
theorem internal_read_nametable (p : Ppu) (addr : Nat)
    (h1 : ¬ addr &&& 0x3FFF ≤ 0x1FFF) (h2 : addr &&& 0x3FFF ≤ 0x3EFF) :
    p.internal_read addr = p.vram.get? (p.mirror_vram_addr (addr &&& 0x3FFF)) := by
  simp only [Ppu.internal_read]
  rw [if_neg h1, if_pos h2]

/-- On a nametable address whose mirrored index is out of the vram range,
internal_write is the panic. -/
theorem internal_write_nametable_oob (p : Ppu) (addr val : Nat)
    (h1 : ¬ addr &&& 0x3FFF ≤ 0x1FFF) (h2 : addr &&& 0x3FFF ≤ 0x3EFF)
    (h3 : ¬ p.mirror_vram_addr (addr &&& 0x3FFF) < p.vram.length) :
    p.internal_write addr val = none := by
  simp only [Ppu.internal_write]
  rw [if_neg h1, if_pos h2, if_neg h3]

/-- Claim C1 (code bug): the loader accepts an image whose flags6 bit 3
selects FourScreen mirroring, but a PPU nametable access at 0x2800 on the
resulting PPU computes the vram index 2048, which is not below the 2 KiB
vram array: internal_read and internal_write hit an out-of-bounds array
index (a panic, modelled as none) instead of returning or storing a byte. -/
theorem claim_c1_fourscreen_oob :
    (Cartridge.from_ines fourScreenTestImage).map (fun c => c.mirroring)
      = .ok Mirroring.FourScreen ∧
    (Cartridge.from_ines fourScreenTestImage).map
      (fun c => (Ppu.new c.chr_rom c.mirroring).mirror_vram_addr 0x2800)
      = .ok 2048 ∧
    ¬ (2048 : Nat) < 2048 ∧
    (Cartridge.from_ines fourScreenTestImage).map
      (fun c => (Ppu.new c.chr_rom c.mirroring).internal_read 0x2800)
      = .ok none ∧
    (Cartridge.from_ines fourScreenTestImage).map
      (fun c => (Ppu.new c.chr_rom c.mirroring).internal_write 0x2800 0)
      = .ok none := by
  have hv : (Ppu.new (List.replicate 8192 0) Mirroring.FourScreen).vram
      = List.replicate 2048 0 := rfl
  have hm : (Ppu.new (List.replicate 8192 0) Mirroring.FourScreen).mirror_vram_addr
      (0x2800 &&& 0x3FFF) = 2048 := rfl
  refine ⟨rfl, rfl, by decide, ?_, ?_⟩
  · rw [from_ines_fourScreenTestImage]
    refine congrArg Except.ok ?_
    show (Ppu.new (List.replicate 8192 0) Mirroring.FourScreen).internal_read 0x2800 = none
    rw [internal_read_nametable _ _ (by decide) (by decide), hm, hv]
    exact List.get?_eq_none.mpr (by rw [List.length_replicate])
  · rw [from_ines_fourScreenTestImage]
    refine congrArg Except.ok ?_
    show (Ppu.new (List.replicate 8192 0) Mirroring.FourScreen).internal_write 0x2800 0 = none
    refine internal_write_nametable_oob _ _ _ (by decide) (by decide) ?_
    rw [hm, hv, List.length_replicate]
    omega

/-- The loader on a header with one CHR page, no PRG pages and no trainer:
any 8192-byte body is sliced out as the CHR ROM. -/
theorem from_ines_chr_page (body : List Nat) (h : body.length = 8192) :
    Cartridge.from_ines
        ([0x4E, 0x45, 0x53, 0x1A, 0, 1, 0, 0, 0, 0, 0, 0, 0, 0, 0, 0] ++ body)
      = .ok { prg_rom := [], chr_rom := body, mapper_id := 0,
              mirroring := Mirroring.Horizontal } := by
  simp [Cartridge.from_ines, List.cons_append, h, INES_MAGIC, CHR_ROM_PAGE_SIZE]

/-- The loader on the concrete CHR ROM test image. -/
theorem from_ines_chrRomTestImage :
    Cartridge.from_ines chrRomTestImage
      = .ok { prg_rom := [], chr_rom := List.replicate 8192 0x11,
              mapper_id := 0, mirroring := Mirroring.Horizontal } :=
  from_ines_chr_page (List.replicate 8192 0x11) (by rw [List.length_replicate])

/-- chr_write on an in-range address stores the byte. -/
theorem chr_write_in_range (m : Mapper0) (addr val : Nat) (h : addr < m.chr.length) :
    m.chr_write addr val = some { m with chr := m.chr.set addr val } := by
  simp only [Mapper0.chr_write]
  rw [if_pos h]

/-- Claim C2 (code bug): on a cartridge loaded with a CHR ROM page,
Mapper0::chr_write is not discarded: writing 0x22 at address 0 changes the
byte chr_read returns from 0x11 to 0x22, contradicting the specification
(and the comment inside chr_write itself). -/
theorem claim_c2_chr_write_not_discarded :
    (Cartridge.from_ines chrRomTestImage).map (fun c => c.chr_rom.length)
      = .ok 8192 ∧
    (Cartridge.from_ines chrRomTestImage).map
      (fun c => Mapper0.chr_read (Mapper0.new c.prg_rom c.chr_rom c.mirroring) 0)
      = .ok (some 0x11) ∧
    (Cartridge.from_ines chrRomTestImage).map
      (fun c => ((Mapper0.new c.prg_rom c.chr_rom c.mirroring).chr_write 0 0x22).map
        (fun m2 => m2.chr_read 0))
      = .ok (some (some 0x22)) := by
  have hchr : (Mapper0.new [] (List.replicate 8192 (0x11:Nat)) Mirroring.Horizontal).chr
      = List.replicate 8192 0x11 := rfl
  refine ⟨?_, ?_, ?_⟩
  · rw [from_ines_chrRomTestImage]
    refine congrArg Except.ok ?_
    show (List.replicate 8192 (0x11:Nat)).length = 8192
    rw [List.length_replicate]
  · rw [from_ines_chrRomTestImage]
    rfl
  · rw [from_ines_chrRomTestImage]
    refine congrArg Except.ok ?_
    show ((Mapper0.new [] (List.replicate 8192 0x11) Mirroring.Horizontal).chr_write 0 0x22).map
        (fun m2 => m2.chr_read 0) = some (some 0x22)
    rw [chr_write_in_range _ _ _ (by rw [hchr, List.length_replicate]; omega)]
    rfl

/-- Bit 7 extraction: (val >> 7) & 1 is 1 exactly when bit 7 is set. -/
theorem shiftRight7_and1 (val : Nat) :
    (val >>> 7) &&& 1 = (if val.testBit 7 then 1 else 0) := by
  rcases h : val.testBit 7 with _ | _ <;> rw [Nat.testBit_to_div_mod] at h <;>
    simp at h <;> rw [Nat.and_one_is_mod, Nat.shiftRight_eq_div_pow] <;> simp [h]

/-- Claim C7: advanced once per CPU tick, the 4-step frame sequencer issues a
quarter-frame clock when the counter reaches 3729, quarter plus half at 7457,
quarter at 11186, quarter plus half at 14915 followed by a reset to 0; the
5-step points are 3729, 7457, 11186 and 18641 (reset); a $4017 write resets
the counter and, when bit 7 of the written value is set (5-step mode),
immediately issues one quarter-frame and one half-frame clock. -/
theorem claim_c7 (a : Apu) :
    (a.frame_counter_mode = 0 →
      a.frame_step =
        (if a.frame_counter + 1 = 3729 then
          Apu.quarter_frame { a with frame_counter := a.frame_counter + 1 }
        else if a.frame_counter + 1 = 7457 then
          Apu.half_frame (Apu.quarter_frame { a with frame_counter := a.frame_counter + 1 })
        else if a.frame_counter + 1 = 11186 then
          Apu.quarter_frame { a with frame_counter := a.frame_counter + 1 }
        else if a.frame_counter + 1 = 14915 then
          { Apu.half_frame (Apu.quarter_frame { a with frame_counter := a.frame_counter + 1 }) with
            frame_counter := 0 }
        else { a with frame_counter := a.frame_counter + 1 })) ∧
    (a.frame_counter_mode = 1 →
      a.frame_step =
        (if a.frame_counter + 1 = 3729 then
          Apu.quarter_frame { a with frame_counter := a.frame_counter + 1 }
        else if a.frame_counter + 1 = 7457 then
          Apu.half_frame (Apu.quarter_frame { a with frame_counter := a.frame_counter + 1 })
        else if a.frame_counter + 1 = 11186 then
          Apu.quarter_frame { a with frame_counter := a.frame_counter + 1 }
        else if a.frame_counter + 1 = 18641 then
          { Apu.half_frame (Apu.quarter_frame { a with frame_counter := a.frame_counter + 1 }) with
            frame_counter := 0 }
        else { a with frame_counter := a.frame_counter + 1 })) ∧
    (∀ val : Nat,
      (a.write_frame_counter val).frame_counter = 0 ∧
      (val.testBit 7 = true →
        a.write_frame_counter val =
          Apu.half_frame (Apu.quarter_frame
            { a with
              frame_counter_mode := 1,
              irq_inhibit := decide (val &&& 0x40 ≠ 0), frame_counter := 0 })) ∧
      (val.testBit 7 = false →
        a.write_frame_counter val =
          { a with
            frame_counter_mode := 0,
            irq_inhibit := decide (val &&& 0x40 ≠ 0), frame_counter := 0 })) := by
  refine ⟨?_, ?_, ?_⟩
  · intro h
    simp [Apu.frame_step, Apu.clock_frame_counter, Apu.clock_4step, h]
  · intro h
    simp [Apu.frame_step, Apu.clock_frame_counter, Apu.clock_5step, h]
  · intro val
    have hb := shiftRight7_and1 val
    refine ⟨?_, ?_, ?_⟩
    · simp only [Apu.write_frame_counter]
      split_ifs <;> simp [Apu.half_frame, Apu.quarter_frame]
    · intro h
      rw [h] at hb
      simp [Apu.write_frame_counter, hb]
    · intro h
      rw [h] at hb
      simp [Apu.write_frame_counter, hb]

/-- Witness for claim C7 at the power-on APU (4-step mode, counter 0): one
frame-sequencer step takes the counter to 1 with no clock issued. -/
theorem claim_c7_witness :
    Apu.new.frame_counter_mode = 0 ∧
    Apu.new.frame_step = { Apu.new with frame_counter := 1 } := by
  refine ⟨rfl, ?_⟩
  have h := (claim_c7 Apu.new).1 rfl
  rw [h]
  decide

/-- After the strobe is dropped, k reads shift the register right k times and
touch nothing else. -/
theorem controller_reads_state (c : Controller) (hstrobe : c.strobe = false) (k : Nat) :
    ((fun st => (Controller.read st).2)^[k] c)
      = { c with shift_register := c.shift_register >>> k } := by
  induction k with
  | zero => simp
  | succ n ih =>
    rw [Function.iterate_succ_apply', ih]
    simp [Controller.read, hstrobe]
    rw [Nat.shiftRight_add]

/-- Claim C8: after write(1); write(0), the eight reads return the low-bit
first decomposition of the latched button byte, and the ninth and later
reads return 0. -/
theorem claim_c8 (c : Controller) (hb : c.buttons < 256) (i : Nat) :
    (i < 8 → Controller.readOut (Controller.write (Controller.write c 1) 0) i
        = (c.buttons >>> i) &&& 1) ∧
    (8 ≤ i → Controller.readOut (Controller.write (Controller.write c 1) 0) i = 0) := by
  have hw : Controller.write (Controller.write c 1) 0
      = { c with strobe := false, shift_register := c.buttons } := by
    simp [Controller.write]
  have hr : Controller.readOut (Controller.write (Controller.write c 1) 0) i
      = (c.buttons >>> i) &&& 1 := by
    rw [hw]
    unfold Controller.readOut
    rw [controller_reads_state _ rfl i]
    simp [Controller.read]
  refine ⟨fun _ => hr, fun h8 => ?_⟩
  rw [hr]
  have hz : c.buttons >>> i = 0 := by
    rw [Nat.shiftRight_eq_div_pow]
    apply Nat.div_eq_of_lt
    calc c.buttons < 256 := hb
      _ = 2 ^ 8 := by norm_num
      _ ≤ 2 ^ i := Nat.pow_le_pow_right (by omega) h8
  rw [hz]
  decide

/-- Witness for claim C8 with buttons 0b10100101: the first read is 1 and
the ninth read is 0. -/
theorem claim_c8_witness :
    ({ Controller.new with buttons := 0xA5 } : Controller).buttons < 256 ∧
    (0 : Nat) < 8 ∧ (8 : Nat) ≤ 8 ∧
    Controller.readOut
      (Controller.write (Controller.write { Controller.new with buttons := 0xA5 } 1) 0) 0 = 1 ∧
    Controller.readOut
      (Controller.write (Controller.write { Controller.new with buttons := 0xA5 } 1) 0) 8 = 0 := by
  refine ⟨by decide, by decide, by decide, ?_, ?_⟩
  · rw [(claim_c8 { Controller.new with buttons := 0xA5 } (by decide) 0).1 (by decide)]
    decide
  · exact (claim_c8 { Controller.new with buttons := 0xA5 } (by decide) 8).2 (by decide)

/-- One LFSR clock from a nonzero 15-bit value stays nonzero and 15-bit. -/
theorem lfsr_step_bounds (sr : Nat) (mode : Bool) (h1 : 1 ≤ sr) (h2 : sr ≤ 0x7FFF) :
    1 ≤ (sr >>> 1) ||| (((sr &&& 1) ^^^ ((sr >>> (if mode then 6 else 1)) &&& 1)) <<< 14) ∧
    (sr >>> 1) ||| (((sr &&& 1) ^^^ ((sr >>> (if mode then 6 else 1)) &&& 1)) <<< 14)
      ≤ 0x7FFF := by
  have hf : (sr &&& 1) ^^^ ((sr >>> (if mode then 6 else 1)) &&& 1) ≤ 1 := by
    have ha : sr &&& 1 < 2 ^ 1 := Nat.and_lt_two_pow sr (by norm_num)
    have hb : (sr >>> (if mode then 6 else 1)) &&& 1 < 2 ^ 1 :=
      Nat.and_lt_two_pow _ (by norm_num)
    have := Nat.xor_lt_two_pow ha hb
    omega
  have hs : sr >>> 1 < 2 ^ 15 := by
    rw [Nat.shiftRight_eq_div_pow]
    omega
  have hsl : ((sr &&& 1) ^^^ ((sr >>> (if mode then 6 else 1)) &&& 1)) <<< 14 < 2 ^ 15 := by
    rw [Nat.shiftLeft_eq]
    calc _ ≤ 1 * 2 ^ 14 := Nat.mul_le_mul_right _ hf
      _ < 2 ^ 15 := by norm_num
  refine ⟨?_, ?_⟩
  · rcases Nat.eq_zero_or_pos ((sr &&& 1) ^^^ ((sr >>> (if mode then 6 else 1)) &&& 1))
      with hz | hp
    · rw [hz]
      simp only [Nat.zero_shiftLeft, Nat.or_zero]
      have hne1 : sr ≠ 1 := by
        intro he
        rw [he] at hz
        rcases mode with _ | _ <;> simp at hz
      rw [Nat.shiftRight_eq_div_pow]
      omega
    · apply Nat.pos_of_ne_zero
      intro h0
      have hfb : (sr &&& 1) ^^^ ((sr >>> (if mode then 6 else 1)) &&& 1) = 1 := by omega
      have ht : ((sr >>> 1) |||
          (((sr &&& 1) ^^^ ((sr >>> (if mode then 6 else 1)) &&& 1)) <<< 14)).testBit 14
          = false := by
        rw [h0]
        exact Nat.zero_testBit 14
      rw [Nat.testBit_or, hfb] at ht
      have hx : Nat.testBit (1 <<< 14) 14 = true := by decide
      rw [hx] at ht
      simp at ht
  · have := Nat.or_lt_two_pow hs hsl
    omega

/-- The timer clock either leaves the LFSR alone or applies the feedback
step. -/
theorem tick_timer_shift (n : Noise) :
    n.tick_timer.shift_register =
      if n.timer_counter = 0 then
        (n.shift_register >>> 1) |||
          (((n.shift_register &&& 1) ^^^
            ((n.shift_register >>> (if n.mode then 6 else 1)) &&& 1)) <<< 14)
      else n.shift_register := by
  simp only [Noise.tick_timer]
  split_ifs <;> rfl

/-- The envelope clock does not touch the LFSR. -/
theorem tick_envelope_shift (n : Noise) :
    n.tick_envelope.shift_register = n.shift_register := by
  simp only [Noise.tick_envelope]
  split_ifs <;> rfl

/-- The length clock does not touch the LFSR. -/
theorem tick_length_shift (n : Noise) :
    n.tick_length.shift_register = n.shift_register := by
  simp only [Noise.tick_length]
  split_ifs <;> rfl

/-- Every Noise operation preserves the LFSR invariant 1 <= sr <= 0x7FFF. -/
theorem noiseOp_preserves_lfsr (op : NoiseOp) (n : Noise)
    (h1 : 1 ≤ n.shift_register) (h2 : n.shift_register ≤ 0x7FFF) :
    1 ≤ (applyNoiseOp op n).shift_register ∧
    (applyNoiseOp op n).shift_register ≤ 0x7FFF := by
  cases op with
  | writeControl v => exact ⟨h1, h2⟩
  | writePeriod v => exact ⟨h1, h2⟩
  | writeLength v => exact ⟨h1, h2⟩
  | tickTimer =>
    show 1 ≤ n.tick_timer.shift_register ∧ n.tick_timer.shift_register ≤ 0x7FFF
    rw [tick_timer_shift]
    by_cases ht : n.timer_counter = 0
    · simp only [if_pos ht]
      exact lfsr_step_bounds n.shift_register n.mode h1 h2
    · simp only [if_neg ht]
      exact ⟨h1, h2⟩
  | tickEnvelope =>
    show 1 ≤ n.tick_envelope.shift_register ∧ n.tick_envelope.shift_register ≤ 0x7FFF
    rw [tick_envelope_shift]
    exact ⟨h1, h2⟩
  | tickLength =>
    show 1 ≤ n.tick_length.shift_register ∧ n.tick_length.shift_register ≤ 0x7FFF
    rw [tick_length_shift]
    exact ⟨h1, h2⟩

/-- Claim C9: from Noise::new (shift_register = 1), after any interleaving of
register writes and timer / envelope / length clocks, the LFSR is never 0 and
fits in 15 bits; and a single LFSR clock from any state satisfying the bounds
preserves them. -/
theorem claim_c9 :
    (∀ ops : List NoiseOp,
      1 ≤ (ops.foldl (fun n op => applyNoiseOp op n) Noise.new).shift_register ∧
      (ops.foldl (fun n op => applyNoiseOp op n) Noise.new).shift_register ≤ 0x7FFF) ∧
    (∀ n : Noise, 1 ≤ n.shift_register → n.shift_register ≤ 0x7FFF →
      1 ≤ n.tick_timer.shift_register ∧ n.tick_timer.shift_register ≤ 0x7FFF) := by
  constructor
  · intro ops
    have main : ∀ ops2 : List NoiseOp, ∀ n : Noise,
        1 ≤ n.shift_register → n.shift_register ≤ 0x7FFF →
        1 ≤ (ops2.foldl (fun m op => applyNoiseOp op m) n).shift_register ∧
        (ops2.foldl (fun m op => applyNoiseOp op m) n).shift_register ≤ 0x7FFF := by
      intro ops2
      induction ops2 with
      | nil => exact fun n h1 h2 => ⟨h1, h2⟩
      | cons op rest ih =>
        intro n h1 h2
        obtain ⟨g1, g2⟩ := noiseOp_preserves_lfsr op n h1 h2
        exact ih _ g1 g2
    exact main ops Noise.new (by decide) (by decide)
  · intro n h1 h2
    exact noiseOp_preserves_lfsr NoiseOp.tickTimer n h1 h2

/-- Witness for claim C9: one timer tick from the power-on Noise channel
clocks the LFSR from 1 to 0x4000, inside the bounds. -/
theorem claim_c9_witness :
    (1 : Nat) ≤ Noise.new.shift_register ∧ Noise.new.shift_register ≤ 0x7FFF ∧
    Noise.new.tick_timer.shift_register = 0x4000 ∧
    (1 : Nat) ≤ Noise.new.tick_timer.shift_register ∧
    Noise.new.tick_timer.shift_register ≤ 0x7FFF := by
  refine ⟨by decide, by decide, by decide, ?_⟩
  exact claim_c9.2 Noise.new (by decide) (by decide)

/-- internal_read ignores the v register. -/
theorem internal_read_v_update (p : Ppu) (x a : Nat) :
    Ppu.internal_read { p with v := x } a = p.internal_read a := rfl

/-- palette_read ignores the v register. -/
theorem palette_read_v_update (p : Ppu) (x a : Nat) :
    Ppu.palette_read { p with v := x } a = p.palette_read a := rfl

/-- Masking after a u16 wrap is reduction mod 2^14. -/
theorem mask14 (x : Nat) : (x % 65536) &&& 0x3FFF = x % 0x4000 := by
  have h : (0x3FFF : Nat) = 2 ^ 14 - 1 := by norm_num
  rw [h, Nat.and_pow_two_sub_one_eq_mod]
  have h2 : (2 : Nat) ^ 14 = 16384 := by norm_num
  rw [h2]
  exact Nat.mod_mod_of_dvd x (by norm_num)

/-- The $2007 read below the palette: the returned byte is the old buffer,
the buffer refills from the pre-increment address, v advances and masks. -/
theorem cpu_read_2007_nonpalette (p : Ppu) (h : p.v < 0x3F00) :
    p.cpu_read 0x2007 =
      (p.internal_read p.v).map
        (fun b => (p.read_buffer,
          { p with
            v := ((p.v + PpuCtrl.vram_increment p.ctrl) % 65536) &&& 0x3FFF,
            read_buffer := b })) := by
  simp only [Ppu.cpu_read]
  norm_num
  rw [if_neg (by omega : ¬ p.v ≥ 0x3F00), internal_read_v_update]
  cases hi : p.internal_read p.v <;> simp [hi]

/-- The $2007 read at or above the palette: the palette byte returns
immediately and the buffer refills from v - 0x1000. -/
theorem cpu_read_2007_palette (p : Ppu) (h : 0x3F00 ≤ p.v) :
    p.cpu_read 0x2007 =
      (p.internal_read (p.v - 0x1000)).map
        (fun b => (p.palette_read p.v,
          { p with
            v := ((p.v + PpuCtrl.vram_increment p.ctrl) % 65536) &&& 0x3FFF,
            read_buffer := b })) := by
  simp only [Ppu.cpu_read]
  norm_num
  rw [if_pos (by omega : p.v ≥ 0x3F00), internal_read_v_update]
  cases hi : p.internal_read (p.v - 0x1000) <;> simp [hi, palette_read_v_update]

/-- internal_write carries a v update through unchanged. -/
theorem internal_write_v_update (p : Ppu) (x a w : Nat) :
    Ppu.internal_write { p with v := x } a w
      = (p.internal_write a w).map (fun q => { q with v := x }) := by
  simp only [Ppu.internal_write, Ppu.palette_write, Ppu.palette_mirror,
    Ppu.mirror_vram_addr]
  split_ifs <;> rfl

/-- The $2007 write: v advances and masks, and the byte goes through
internal_write at the pre-increment address. -/
theorem cpu_write_2007 (p : Ppu) (val : Nat) :
    p.cpu_write 0x2007 val =
      Ppu.internal_write
        { p with v := ((p.v + PpuCtrl.vram_increment p.ctrl) % 65536) &&& 0x3FFF }
        p.v val := by
  simp only [Ppu.cpu_write]
  norm_num

/-- Under Horizontal or Vertical mirroring the mirrored nametable index is
inside the 2 KiB vram. -/
theorem mirror_lt_2048 (p : Ppu)
    (hm : p.mirroring = Mirroring.Horizontal ∨ p.mirroring = Mirroring.Vertical)
    (addr : Nat) : p.mirror_vram_addr addr < 2048 := by
  have ha : (addr - 0x2000) &&& 0x0FFF < 4096 := by
    have h12 := Nat.and_lt_two_pow (addr - 0x2000) (show (0x0FFF : Nat) < 2 ^ 12 by norm_num)
    exact lt_of_lt_of_eq h12 (by norm_num)
  rcases hm with h | h <;>
    simp only [Ppu.mirror_vram_addr, h] <;>
    [set nt := ((addr - 0x2000) &&& 0x0FFF) / 0x400 with hnt;
     set nt := ((addr - 0x2000) &&& 0x0FFF) / 0x400 with hnt] <;>
    have hle : nt ≤ 3 := by omega
  all_goals interval_cases nt <;> simp <;> omega

/-- Under Horizontal or Vertical mirroring and a 2 KiB vram, internal_read
always yields a byte. -/
theorem internal_read_some (p : Ppu)
    (hm : p.mirroring = Mirroring.Horizontal ∨ p.mirroring = Mirroring.Vertical)
    (hw : p.vram.length = 2048) (addr : Nat) :
    ∃ b, p.internal_read addr = some b := by
  simp only [Ppu.internal_read]
  split_ifs with h1 h2 h3
  · exact ⟨_, rfl⟩
  · exact ⟨_, rfl⟩
  · have hlt := mirror_lt_2048 p hm (addr &&& 0x3FFF)
    rw [List.get?_eq_get (by omega)]
    exact ⟨_, rfl⟩
  · exact ⟨_, rfl⟩

/-- Under Horizontal or Vertical mirroring and a 2 KiB vram, internal_write
always succeeds. -/
theorem internal_write_some (p : Ppu)
    (hm : p.mirroring = Mirroring.Horizontal ∨ p.mirroring = Mirroring.Vertical)
    (hw : p.vram.length = 2048) (addr val : Nat) :
    ∃ q, p.internal_write addr val = some q := by
  simp only [Ppu.internal_write]
  split_ifs with h1 h2 h3 h4
  · exact ⟨_, rfl⟩
  · exact ⟨_, rfl⟩
  · exact ⟨_, rfl⟩
  · exact absurd (by rw [hw]; exact mirror_lt_2048 p hm (addr &&& 0x3FFF)) h4
  · exact ⟨_, rfl⟩

/-- Counterexample to claim C4 as stated: on a PPU state reachable from a
four-screen cartridge with v = 0x2800, the $2007 read panics (none) instead
of returning the previous read buffer 0xAB. -/
theorem claim_c4_counterexample :
    Ppu.cpu_read
      { Ppu.new (List.replicate 8192 0) Mirroring.FourScreen with
        v := 0x2800, read_buffer := 0xAB } 0x2007 = none := by
  rw [cpu_read_2007_nonpalette _ (by decide)]
  have hnone : Ppu.internal_read
      { Ppu.new (List.replicate 8192 0) Mirroring.FourScreen with
        v := 0x2800, read_buffer := 0xAB } 0x2800 = none := by
    rw [internal_read_nametable _ _ (by decide) (by decide)]
    have hm : Ppu.mirror_vram_addr
        { Ppu.new (List.replicate 8192 0) Mirroring.FourScreen with
          v := 0x2800, read_buffer := 0xAB } (0x2800 &&& 0x3FFF) = 2048 := rfl
    have hv : ({ Ppu.new (List.replicate 8192 0) Mirroring.FourScreen with
        v := 0x2800, read_buffer := 0xAB } : Ppu).vram = List.replicate 2048 0 := rfl
    rw [hm, hv]
    exact List.get?_eq_none.mpr (by rw [List.length_replicate])
  rw [hnone]
  rfl

/-- Claim C4 (amended to states whose nametable mirroring is Horizontal or
Vertical, since four-screen states panic, see the counterexample): a $2007
read with v below 0x3F00 returns the previous read_buffer and refills the
buffer from the pre-increment address; with v at or above 0x3F00 it returns
the palette byte immediately and fills the buffer from v - 0x1000; in reads
and writes alike, v is incremented by 1 or 32 per the PPUCTRL increment bit
and then masked to 14 bits. -/
theorem claim_c4 (p : Ppu)
    (hm : p.mirroring = Mirroring.Horizontal ∨ p.mirroring = Mirroring.Vertical)
    (hw : p.vram.length = 2048) (val : Nat) :
    (p.v < 0x3F00 →
      ∃ out p2, p.cpu_read 0x2007 = some (out, p2) ∧
        out = p.read_buffer ∧
        p.internal_read p.v = some p2.read_buffer ∧
        p2.v = (p.v + (if p.ctrl.testBit 2 then 32 else 1)) % 0x4000) ∧
    (0x3F00 ≤ p.v →
      ∃ out p2, p.cpu_read 0x2007 = some (out, p2) ∧
        out = p.palette_read p.v ∧
        p.internal_read (p.v - 0x1000) = some p2.read_buffer ∧
        p2.v = (p.v + (if p.ctrl.testBit 2 then 32 else 1)) % 0x4000) ∧
    (∃ p2 p3, p.cpu_write 0x2007 val = some p2 ∧
        p.internal_write p.v val = some p3 ∧
        p2 = { p3 with v := (p.v + (if p.ctrl.testBit 2 then 32 else 1)) % 0x4000 }) := by
  have hvmask : ((p.v + PpuCtrl.vram_increment p.ctrl) % 65536) &&& 0x3FFF
      = (p.v + (if p.ctrl.testBit 2 then 32 else 1)) % 0x4000 := by
    rw [mask14]
    rfl
  refine ⟨?_, ?_, ?_⟩
  · intro h
    obtain ⟨b, hb⟩ := internal_read_some p hm hw p.v
    refine ⟨p.read_buffer,
      { p with
        v := (p.v + (if p.ctrl.testBit 2 then 32 else 1)) % 0x4000,
        read_buffer := b }, ?_, rfl, ?_, rfl⟩
    · rw [cpu_read_2007_nonpalette p h, hb, ← hvmask]
      rfl
    · exact hb
  · intro h
    obtain ⟨b, hb⟩ := internal_read_some p hm hw (p.v - 0x1000)
    refine ⟨p.palette_read p.v,
      { p with
        v := (p.v + (if p.ctrl.testBit 2 then 32 else 1)) % 0x4000,
        read_buffer := b }, ?_, rfl, ?_, rfl⟩
    · rw [cpu_read_2007_palette p h, hb, ← hvmask]
      rfl
    · exact hb
  · obtain ⟨q, hq⟩ := internal_write_some p hm hw p.v val
    refine ⟨{ q with v := (p.v + (if p.ctrl.testBit 2 then 32 else 1)) % 0x4000 },
      q, ?_, hq, rfl⟩
    rw [cpu_write_2007, internal_write_v_update, hq, hvmask]
    rfl

/-- Witness for claim C4 at the power-on PPU with horizontal mirroring: the
\$2007 read path succeeds as described. -/
theorem claim_c4_witness :
    ((Ppu.new [] Mirroring.Horizontal).mirroring = Mirroring.Horizontal ∨
      (Ppu.new [] Mirroring.Horizontal).mirroring = Mirroring.Vertical) ∧
    (Ppu.new [] Mirroring.Horizontal).vram.length = 2048 ∧
    (Ppu.new [] Mirroring.Horizontal).v < 0x3F00 ∧
    (∃ out p2, (Ppu.new [] Mirroring.Horizontal).cpu_read 0x2007 = some (out, p2) ∧
      out = (Ppu.new [] Mirroring.Horizontal).read_buffer ∧
      (Ppu.new [] Mirroring.Horizontal).internal_read (Ppu.new [] Mirroring.Horizontal).v
        = some p2.read_buffer ∧
      p2.v = ((Ppu.new [] Mirroring.Horizontal).v +
        (if (Ppu.new [] Mirroring.Horizontal).ctrl.testBit 2 then 32 else 1)) % 0x4000) := by
  have hw : (Ppu.new [] Mirroring.Horizontal).vram.length = 2048 := by
    rw [show (Ppu.new [] Mirroring.Horizontal).vram = List.replicate 2048 0 from rfl,
      List.length_replicate]
  refine ⟨Or.inl rfl, hw, by decide, ?_⟩
  exact (claim_c4 (Ppu.new [] Mirroring.Horizontal) (Or.inl rfl) hw 7).1 (by decide)

/-- A pure fold preserves an invariant its body preserves. -/
theorem foldl_inv {α σ : Type} (Inv : σ → Prop) (f : σ → α → σ)
    (hf : ∀ s a, Inv s → Inv (f s a)) :
    ∀ (l : List α) (s : σ), Inv s → Inv (l.foldl f s) := by
  intro l
  induction l with
  | nil => exact fun s h => h
  | cons a t ih => exact fun s h => ih (f s a) (hf s a h)

/-- An Option fold whose body always succeeds and preserves an invariant
succeeds and preserves it. -/
theorem foldlM_inv {α σ : Type} (Inv : σ → Prop) (f : σ → α → Option σ)
    (hf : ∀ s a, Inv s → ∃ s2, f s a = some s2 ∧ Inv s2) :
    ∀ (l : List α) (s : σ), Inv s → ∃ s2, l.foldlM f s = some s2 ∧ Inv s2 := by
  intro l
  induction l with
  | nil => exact fun s h => ⟨s, rfl, h⟩
  | cons a t ih =>
    intro s h
    obtain ⟨s1, hs1, hi1⟩ := hf s a h
    obtain ⟨s2, hs2, hi2⟩ := ih s1 hi1
    refine ⟨s2, ?_, hi2⟩
    rw [List.foldlM_cons, hs1]
    simpa using hs2

/-- Chaining a successful Option through a total continuation. -/
theorem bind_some_inv {β σ : Type} (Inv : σ → Prop) (x : Option β) (f : β → Option σ)
    (hx : ∃ b, x = some b) (hf : ∀ b, ∃ s2, f b = some s2 ∧ Inv s2) :
    ∃ s2, x.bind f = some s2 ∧ Inv s2 := by
  obtain ⟨b, hb⟩ := hx
  obtain ⟨s2, h1, h2⟩ := hf b
  exact ⟨s2, by rw [hb]; simpa using h1, h2⟩

/-- Chaining a successful Option carrying an invariant of its own. -/
theorem bind_inv {β σ : Type} (Inv2 : β → Prop) (Inv : σ → Prop) (x : Option β)
    (f : β → Option σ) (hx : ∃ b, x = some b ∧ Inv2 b)
    (hf : ∀ b, Inv2 b → ∃ s2, f b = some s2 ∧ Inv s2) :
    ∃ s2, x.bind f = some s2 ∧ Inv s2 := by
  obtain ⟨b, hb, h2⟩ := hx
  obtain ⟨s2, h3, h4⟩ := hf b h2
  exact ⟨s2, by rw [hb]; simpa using h3, h4⟩

/-- The scanline-clear loop of render_scanline only writes the frame. -/
theorem clear_fold_inv (p s : Ppu) (sl : Nat) (c : Nat × Nat × Nat)
    (hs : RenderInv p s) :
    RenderInv p ((List.range 256).foldl
      (fun st x => { st with frame := st.frame.set_pixel x sl c }) s) := by
  refine foldl_inv (RenderInv p) _ ?_ _ s hs
  intro st x h
  exact ⟨h.1, h.2.1, h.2.2.1, h.2.2.2.1, h.2.2.2.2⟩

/-- Under Horizontal or Vertical mirroring the background pass succeeds and
only writes the frame. -/
theorem render_bg_scanline_inv (p s : Ppu)
    (hm : p.mirroring = Mirroring.Horizontal ∨ p.mirroring = Mirroring.Vertical)
    (hw : p.vram.length = 2048) (sl : Nat) (hs : RenderInv p s) :
    ∃ q, s.render_bg_scanline sl = some q ∧ RenderInv p q := by
  simp only [Ppu.render_bg_scanline]
  refine foldlM_inv (RenderInv p) _ ?_ _ s hs
  intro st i hInv
  obtain ⟨hc, hsl, hfc, hmir, hvr⟩ := hInv
  have hm2 : st.mirroring = Mirroring.Horizontal ∨ st.mirroring = Mirroring.Vertical := by
    rw [hmir]; exact hm
  have hw2 : st.vram.length = 2048 := by rw [hvr]; exact hw
  have hall : ∀ a, ∃ b, st.internal_read a = some b :=
    internal_read_some st hm2 hw2
  split
  · exact ⟨st, rfl, hc, hsl, hfc, hmir, hvr⟩
  · refine bind_some_inv _ _ _ (hall _) ?_
    intro t1
    try dsimp only
    refine bind_some_inv _ _ _ (hall _) ?_
    intro pl0
    try dsimp only
    refine bind_some_inv _ _ _ (hall _) ?_
    intro pl1
    try dsimp only
    refine bind_some_inv _ _ _ (hall _) ?_
    intro ab
    try dsimp only
    exact ⟨_, rfl, hc, hsl, hfc, hmir, hvr⟩

/-- Under Horizontal or Vertical mirroring the sprite pass succeeds and
only writes the frame and the status flags. -/
theorem render_sprite_scanline_inv (p s : Ppu)
    (hm : p.mirroring = Mirroring.Horizontal ∨ p.mirroring = Mirroring.Vertical)
    (hw : p.vram.length = 2048) (sl : Nat) (hs : RenderInv p s) :
    ∃ q, s.render_sprite_scanline sl = some q ∧ RenderInv p q := by
  simp only [Ppu.render_sprite_scanline]
  have heval : ∀ (l : List Nat) (acc : List Nat × Bool × Ppu), RenderInv p acc.2.2 →
      RenderInv p (l.foldl (fun (acc : List Nat × Bool × Ppu) i =>
        if acc.2.1 then acc
        else
          if sl ≥ acc.2.2.oam.getD (i * 4) 0 + 1 ∧
              sl < acc.2.2.oam.getD (i * 4) 0 + 1 +
                (if s.ctrl.testBit 5 then 16 else 8) then
            if acc.1.length < 8 then (acc.1 ++ [i], false, acc.2.2)
            else (acc.1, true,
              { acc.2.2 with
                status := { acc.2.2.status with sprite_overflow := true } })
          else acc) acc).2.2 := by
    intro l
    refine foldl_inv (fun acc : List Nat × Bool × Ppu => RenderInv p acc.2.2) _ ?_ l
    intro acc i h
    try dsimp only
    split_ifs <;>
      exact ⟨h.1, h.2.1, h.2.2.1, h.2.2.2.1, h.2.2.2.2⟩
  refine foldlM_inv (RenderInv p) _ ?_ _ _ (heval _ _ hs)
  intro st i hInv
  obtain ⟨hc, hsl, hfc, hmir, hvr⟩ := hInv
  have hm2 : st.mirroring = Mirroring.Horizontal ∨ st.mirroring = Mirroring.Vertical := by
    rw [hmir]; exact hm
  have hw2 : st.vram.length = 2048 := by rw [hvr]; exact hw
  have hall : ∀ a, ∃ b, st.internal_read a = some b :=
    internal_read_some st hm2 hw2
  refine bind_some_inv _ _ _ (hall _) ?_
  intro pl0
  try dsimp only
  refine bind_some_inv _ _ _ (hall _) ?_
  intro pl1
  try dsimp only
  refine ⟨_, rfl, ?_⟩
  refine foldl_inv (RenderInv p) _ ?_ _ st ⟨hc, hsl, hfc, hmir, hvr⟩
  intro st2 col h2
  try dsimp only
  split_ifs <;>
    exact ⟨h2.1, h2.2.1, h2.2.2.1, h2.2.2.2.1, h2.2.2.2.2⟩

/-- Under Horizontal or Vertical mirroring render_scanline succeeds and
only writes the frame and the status flags. -/
theorem render_scanline_inv (p s : Ppu)
    (hm : p.mirroring = Mirroring.Horizontal ∨ p.mirroring = Mirroring.Vertical)
    (hw : p.vram.length = 2048) (sl : Nat) (hs : RenderInv p s) :
    ∃ q, s.render_scanline sl = some q ∧ RenderInv p q := by
  simp only [Ppu.render_scanline]
  refine bind_inv (RenderInv p) (RenderInv p) _ _ ?_ ?_
  · split
    · exact render_bg_scanline_inv p _ hm hw sl (clear_fold_inv p s sl _ hs)
    · exact ⟨_, rfl, clear_fold_inv p s sl _ hs⟩
  · intro b hb
    split
    · exact render_sprite_scanline_inv p b hm hw sl hb
    · exact ⟨b, rfl, hb⟩

/-- The scroll stage of Ppu::tick never touches the counters, the
mirroring or the vram. -/
theorem tick_scroll_counters (vis pre : Bool) (q : Ppu) :
    (Ppu.tick_scroll vis pre q).cycle = q.cycle ∧
    (Ppu.tick_scroll vis pre q).scanline = q.scanline ∧
    (Ppu.tick_scroll vis pre q).frame_count = q.frame_count ∧
    (Ppu.tick_scroll vis pre q).mirroring = q.mirroring ∧
    (Ppu.tick_scroll vis pre q).vram = q.vram := by
  simp only [Ppu.tick_scroll, Ppu.increment_v_y]
  split_ifs <;> exact ⟨rfl, rfl, rfl, rfl, rfl⟩

/-- The flag stage of Ppu::tick never touches the counters, the mirroring
or the vram. -/
theorem tick_flags_counters (pre : Bool) (q : Ppu) :
    (Ppu.tick_flags pre q).2.cycle = q.cycle ∧
    (Ppu.tick_flags pre q).2.scanline = q.scanline ∧
    (Ppu.tick_flags pre q).2.frame_count = q.frame_count ∧
    (Ppu.tick_flags pre q).2.mirroring = q.mirroring ∧
    (Ppu.tick_flags pre q).2.vram = q.vram := by
  simp only [Ppu.tick_flags]
  split_ifs <;> exact ⟨rfl, rfl, rfl, rfl, rfl⟩

/-- The counter advance of Ppu::tick: bounds are preserved, the linear
index advances by one modulo 89342, the successor equations of the claim
hold, and frame_count increments exactly at the last lattice point. -/
theorem tick_advance_spec (fc : Bool) (q : Ppu) (hc : q.cycle ≤ 340)
    (hs : q.scanline ≤ 261) :
    ((Ppu.tick_advance fc q).2.cycle ≤ 340 ∧
      (Ppu.tick_advance fc q).2.scanline ≤ 261) ∧
    (Ppu.tick_advance fc q).2.toIdx = (q.toIdx + 1) % 89342 ∧
    ((Ppu.tick_advance fc q).2.cycle = if q.cycle = 340 then 0 else q.cycle + 1) ∧
    ((Ppu.tick_advance fc q).2.scanline =
      if q.cycle = 340 then (if q.scanline = 261 then 0 else q.scanline + 1)
      else q.scanline) ∧
    ((Ppu.tick_advance fc q).2.frame_count =
      if q.scanline = 261 ∧ q.cycle = 340 then q.frame_count + 1
      else q.frame_count) ∧
    ((Ppu.tick_advance fc q).2.frame_count =
      q.frame_count + if q.toIdx = 89341 then 1 else 0) ∧
    (Ppu.tick_advance fc q).2.mirroring = q.mirroring ∧
    (Ppu.tick_advance fc q).2.vram = q.vram := by
  refine ⟨⟨?_, ?_⟩, ?_, ?_, ?_, ?_, ?_, ?_, ?_⟩ <;>
    simp only [Ppu.tick_advance, Ppu.toIdx] <;>
    split_ifs <;> (try simp_all) <;> omega

/-- The three post-render stages of Ppu::tick composed. -/
theorem tick_stages_spec (vis pre : Bool) (q0 : Ppu) (hc : q0.cycle ≤ 340)
    (hs : q0.scanline ≤ 261) :
    ((Ppu.tick_advance (Ppu.tick_flags pre (Ppu.tick_scroll vis pre q0)).1 (Ppu.tick_flags pre (Ppu.tick_scroll vis pre q0)).2).2.cycle ≤ 340 ∧ (Ppu.tick_advance (Ppu.tick_flags pre (Ppu.tick_scroll vis pre q0)).1 (Ppu.tick_flags pre (Ppu.tick_scroll vis pre q0)).2).2.scanline ≤ 261) ∧
    (Ppu.tick_advance (Ppu.tick_flags pre (Ppu.tick_scroll vis pre q0)).1 (Ppu.tick_flags pre (Ppu.tick_scroll vis pre q0)).2).2.toIdx = (q0.toIdx + 1) % 89342 ∧
    ((Ppu.tick_advance (Ppu.tick_flags pre (Ppu.tick_scroll vis pre q0)).1 (Ppu.tick_flags pre (Ppu.tick_scroll vis pre q0)).2).2.cycle = if q0.cycle = 340 then 0 else q0.cycle + 1) ∧
    ((Ppu.tick_advance (Ppu.tick_flags pre (Ppu.tick_scroll vis pre q0)).1 (Ppu.tick_flags pre (Ppu.tick_scroll vis pre q0)).2).2.scanline =
      if q0.cycle = 340 then (if q0.scanline = 261 then 0 else q0.scanline + 1)
      else q0.scanline) ∧
    ((Ppu.tick_advance (Ppu.tick_flags pre (Ppu.tick_scroll vis pre q0)).1 (Ppu.tick_flags pre (Ppu.tick_scroll vis pre q0)).2).2.frame_count =
      if q0.scanline = 261 ∧ q0.cycle = 340 then q0.frame_count + 1
      else q0.frame_count) ∧
    ((Ppu.tick_advance (Ppu.tick_flags pre (Ppu.tick_scroll vis pre q0)).1 (Ppu.tick_flags pre (Ppu.tick_scroll vis pre q0)).2).2.frame_count = q0.frame_count + if q0.toIdx = 89341 then 1 else 0) ∧
    (Ppu.tick_advance (Ppu.tick_flags pre (Ppu.tick_scroll vis pre q0)).1 (Ppu.tick_flags pre (Ppu.tick_scroll vis pre q0)).2).2.mirroring = q0.mirroring ∧
    (Ppu.tick_advance (Ppu.tick_flags pre (Ppu.tick_scroll vis pre q0)).1 (Ppu.tick_flags pre (Ppu.tick_scroll vis pre q0)).2).2.vram = q0.vram := by
  obtain ⟨m1, m2, m3, m4, m5⟩ :=
    tick_flags_counters pre (Ppu.tick_scroll vis pre q0)
  obtain ⟨s1, s2, s3, s4, s5⟩ := tick_scroll_counters vis pre q0
  have n1 : (Ppu.tick_flags pre (Ppu.tick_scroll vis pre q0)).2.cycle = q0.cycle := m1.trans s1
  have n2 : (Ppu.tick_flags pre (Ppu.tick_scroll vis pre q0)).2.scanline = q0.scanline := m2.trans s2
  have n3 : (Ppu.tick_flags pre (Ppu.tick_scroll vis pre q0)).2.frame_count = q0.frame_count := m3.trans s3
  have n4 : (Ppu.tick_flags pre (Ppu.tick_scroll vis pre q0)).2.mirroring = q0.mirroring := m4.trans s4
  have n5 : (Ppu.tick_flags pre (Ppu.tick_scroll vis pre q0)).2.vram = q0.vram := m5.trans s5
  have nidx : (Ppu.tick_flags pre (Ppu.tick_scroll vis pre q0)).2.toIdx = q0.toIdx := by
    simp only [Ppu.toIdx]
    rw [n1, n2]
  obtain ⟨hb, h2, h3, h4, h5, h6, h7, h8⟩ :=
    tick_advance_spec (Ppu.tick_flags pre (Ppu.tick_scroll vis pre q0)).1 (Ppu.tick_flags pre (Ppu.tick_scroll vis pre q0)).2 (by rw [n1]; exact hc) (by rw [n2]; exact hs)
  rw [nidx] at h2
  rw [n1] at h3
  rw [n1, n2] at h4
  rw [n2, n1, n3] at h5
  rw [nidx, n3] at h6
  rw [n4] at h7
  rw [n5] at h8
  exact ⟨hb, h2, h3, h4, h5, h6, h7, h8⟩

/-- Under Horizontal or Vertical mirroring, from any in-range lattice
point Ppu::tick returns (does not panic) and advances the counters by
exactly one lattice point. -/
theorem tick_spec (p : Ppu)
    (hm : p.mirroring = Mirroring.Horizontal ∨ p.mirroring = Mirroring.Vertical)
    (hw : p.vram.length = 2048) (hc : p.cycle ≤ 340) (hs : p.scanline ≤ 261) :
    ∃ fc q, p.tick = some (fc, q) ∧
      (q.cycle ≤ 340 ∧ q.scanline ≤ 261) ∧
      q.toIdx = (p.toIdx + 1) % 89342 ∧
      (q.cycle = if p.cycle = 340 then 0 else p.cycle + 1) ∧
      (q.scanline =
        if p.cycle = 340 then (if p.scanline = 261 then 0 else p.scanline + 1)
        else p.scanline) ∧
      (q.frame_count =
        if p.scanline = 261 ∧ p.cycle = 340 then p.frame_count + 1
        else p.frame_count) ∧
      (q.frame_count = p.frame_count + if p.toIdx = 89341 then 1 else 0) ∧
      q.mirroring = p.mirroring ∧ q.vram = p.vram := by
  have hrender : ∃ q0, (if p.scanline < 240 ∧ p.cycle = 0
      then p.render_scanline p.scanline else some p) = some q0 ∧ RenderInv p q0 := by
    split
    · exact render_scanline_inv p p hm hw p.scanline ⟨rfl, rfl, rfl, rfl, rfl⟩
    · exact ⟨p, rfl, rfl, rfl, rfl, rfl, rfl⟩
  obtain ⟨q0, hq0, hc0, hs0, hf0, hm0, hv0⟩ := hrender
  obtain ⟨hb, h2, h3, h4, h5, h6, h7, h8⟩ :=
    tick_stages_spec (decide (p.scanline < 240)) (decide (p.scanline = 261)) q0
      (by rw [hc0]; exact hc) (by rw [hs0]; exact hs)
  have hidx0 : q0.toIdx = p.toIdx := by
    simp only [Ppu.toIdx]
    rw [hc0, hs0]
  rw [hidx0] at h2
  rw [hc0] at h3
  rw [hc0, hs0] at h4
  rw [hs0, hc0, hf0] at h5
  rw [hidx0, hf0] at h6
  rw [hm0] at h7
  rw [hv0] at h8
  refine ⟨(Ppu.tick_advance
      (Ppu.tick_flags (decide (p.scanline = 261))
        (Ppu.tick_scroll (decide (p.scanline < 240)) (decide (p.scanline = 261)) q0)).1
      (Ppu.tick_flags (decide (p.scanline = 261))
        (Ppu.tick_scroll (decide (p.scanline < 240)) (decide (p.scanline = 261)) q0)).2).1,
    _, ?_, hb, h2, h3, h4, h5, h6, h7, h8⟩
  simp only [Ppu.tick]
  rw [hq0]
  rfl

/-- Iterating Ppu::tick k times under Horizontal/Vertical mirroring: the
linear index advances by k modulo 89342 and frame_count by the number of
lattice wraparounds passed. -/
theorem tickN_spec : ∀ (k : Nat) (p : Ppu),
    p.mirroring = Mirroring.Horizontal ∨ p.mirroring = Mirroring.Vertical →
    p.vram.length = 2048 → p.cycle ≤ 340 → p.scanline ≤ 261 →
    ∃ q, Ppu.tickN k p = some q ∧
      (q.cycle ≤ 340 ∧ q.scanline ≤ 261) ∧
      q.toIdx = (p.toIdx + k) % 89342 ∧
      q.frame_count = p.frame_count + (p.toIdx + k) / 89342 ∧
      q.mirroring = p.mirroring ∧ q.vram = p.vram := by
  intro k
  induction k with
  | zero =>
    intro p hm hw hc hs
    have hlt : p.toIdx < 89342 := by
      simp only [Ppu.toIdx]
      omega
    exact ⟨p, rfl, ⟨hc, hs⟩, by omega, by omega, rfl, rfl⟩
  | succ n ih =>
    intro p hm hw hc hs
    obtain ⟨fc, q, h1, ⟨hqc, hqs⟩, hidx, _, _, _, hfcq, hqm, hqv⟩ :=
      tick_spec p hm hw hc hs
    obtain ⟨r, hr1, hrb, hridx, hrfc, hrm, hrv⟩ :=
      ih q (by rw [hqm]; exact hm) (by rw [hqv]; exact hw) hqc hqs
    have hlt : p.toIdx < 89342 := by
      simp only [Ppu.toIdx]
      omega
    refine ⟨r, ?_, hrb, ?_, ?_, hrm.trans hqm, hrv.trans hqv⟩
    · show (p.tick).bind (fun x => Ppu.tickN n x.2) = some r
      rw [h1]
      simpa using hr1
    · rw [hridx, hidx]
      omega
    · rw [hrfc, hfcq, hidx]
      split_ifs with h <;> omega

/-- C6 counterexample to the unrestricted original claim: a reachable
FourScreen PPU state inside [0..261] x [0..340] on which Ppu::tick panics
instead of advancing the counters.  The state is reached from power-on by
the CPU writes $2001 := 0x08 (SHOW_BG) and $2006 := 0x2C, $2006 := 0x00
(v := 0x2C00); tick at (scanline, cycle) = (0, 0) calls render_scanline,
whose first unskipped background fetch reads nametable address 0x2C01,
which FourScreen mirroring maps to vram index 3073 ≥ 2048 (the panic of
C1). -/
theorem claim_c6_counterexample :
    (((Ppu.new (List.replicate 8192 0) Mirroring.FourScreen).cpu_write 0x2001 0x08).bind
        (fun p1 => (p1.cpu_write 0x2006 0x2C).bind
          (fun p2 => p2.cpu_write 0x2006 0x00)) = some fourScreenTickState) ∧
    (fourScreenTickState.cycle ≤ 340 ∧ fourScreenTickState.scanline ≤ 261) ∧
    Ppu.tick fourScreenTickState = none := by
  refine ⟨rfl, ⟨by decide, by decide⟩, ?_⟩
  rfl

/-- C6 (corrected): restricted to Horizontal or Vertical nametable
mirroring (under FourScreen, Ppu::tick can panic on reachable states, see
the counterexample and C1).  From any PPU state with (scanline, cycle) in
[0..261] x [0..340] and a 2 KiB vram, Ppu::tick returns, keeps the
counters in range, advances the lattice point by exactly one in row-major
sequence — cycle + 1, wrapping 340 to 0 with scanline + 1, scanline
wrapping 261 to 0 — increments frame_count exactly at that last wrap, and
341 * 262 consecutive ticks increment frame_count exactly once. -/
theorem claim_c6 (p : Ppu)
    (hm : p.mirroring = Mirroring.Horizontal ∨ p.mirroring = Mirroring.Vertical)
    (hw : p.vram.length = 2048) (hc : p.cycle ≤ 340) (hs : p.scanline ≤ 261) :
    (∃ fc q, p.tick = some (fc, q) ∧
      (q.cycle ≤ 340 ∧ q.scanline ≤ 261) ∧
      q.toIdx = (p.toIdx + 1) % (341 * 262) ∧
      (q.cycle = if p.cycle = 340 then 0 else p.cycle + 1) ∧
      (q.scanline =
        if p.cycle = 340 then (if p.scanline = 261 then 0 else p.scanline + 1)
        else p.scanline) ∧
      (q.frame_count =
        if p.scanline = 261 ∧ p.cycle = 340 then p.frame_count + 1
        else p.frame_count)) ∧
    (∃ r, Ppu.tickN (341 * 262) p = some r ∧
      r.frame_count = p.frame_count + 1) := by
  constructor
  · obtain ⟨fc, q, h1, h2, h3, h4, h5, h6, _, _, _⟩ := tick_spec p hm hw hc hs
    refine ⟨fc, q, h1, h2, ?_, h4, h5, h6⟩
    rw [h3]
  · obtain ⟨r, h1, _, _, hfc, _, _⟩ := tickN_spec (341 * 262) p hm hw hc hs
    refine ⟨r, h1, ?_⟩
    rw [hfc]
    have hlt : p.toIdx < 89342 := by
      simp only [Ppu.toIdx]
      omega
    omega

/-- C6 witness at the power-on PPU with Horizontal mirroring: the renderer
does run at (0, 0), but with rendering disabled only the clear loop
executes, and a whole frame of ticks advances frame_count by one. -/
theorem claim_c6_witness :
    ((Ppu.new [] Mirroring.Horizontal).mirroring = Mirroring.Horizontal ∨
      (Ppu.new [] Mirroring.Horizontal).mirroring = Mirroring.Vertical) ∧
    (Ppu.new [] Mirroring.Horizontal).vram.length = 2048 ∧
    (Ppu.new [] Mirroring.Horizontal).cycle ≤ 340 ∧
    (Ppu.new [] Mirroring.Horizontal).scanline ≤ 261 ∧
    (∃ r, Ppu.tickN (341 * 262) (Ppu.new [] Mirroring.Horizontal) = some r ∧
      r.frame_count = (Ppu.new [] Mirroring.Horizontal).frame_count + 1) := by
  have hw : (Ppu.new [] Mirroring.Horizontal).vram.length = 2048 := by
    rw [show (Ppu.new [] Mirroring.Horizontal).vram = List.replicate 2048 0 from rfl,
      List.length_replicate]
  refine ⟨Or.inl rfl, hw, by decide, by decide, ?_⟩
  exact (claim_c6 (Ppu.new [] Mirroring.Horizontal) (Or.inl rfl) hw
    (by decide) (by decide)).2

/-- The bus routes a $2007 write to the PPU and leaves every other component
alone. -/
theorem bus_cpu_write_2007 (b : Bus) (val : Nat) :
    b.cpu_write 0x2007 val
      = (b.ppu.cpu_write 0x2007 val).map (fun p => { b with ppu := p }) := by
  simp [Bus.cpu_write]
  rw [show (8192 + (8199 &&& 7) : Nat) = 8199 from by decide]

/-- internal_write on an in-range pattern-table address stores into the PPU
CHR copy. -/
theorem internal_write_pattern (p : Ppu) (a w : Nat) (h1 : a &&& 0x3FFF ≤ 0x1FFF)
    (h2 : a &&& 0x3FFF < p.chr_rom.length) :
    p.internal_write a w
      = some { p with chr_rom := p.chr_rom.set (a &&& 0x3FFF) w } := by
  simp only [Ppu.internal_write]
  rw [if_pos h1, if_pos h2]

/-- Claim C10: Bus::new hands the PPU an independent clone of the cartridge
CHR bytes: both the PPU copy and the mapper copy start equal to the
cartridge CHR; a CPU write through $2007 to an in-range pattern-table
address updates only the PPU copy, leaving the mapper (and every
Mapper0::chr_read result) unchanged; and replacing the mapper by any
chr_write result leaves the PPU state untouched. -/
theorem claim_c10 (cart : Cartridge) (b : Bus) (val : Nat)
    (hpat : b.ppu.v &&& 0x3FFF ≤ 0x1FFF)
    (hlen : b.ppu.v &&& 0x3FFF < b.ppu.chr_rom.length) :
    ((Bus.new cart).ppu.chr_rom = cart.chr_rom ∧
      (Bus.new cart).mapper.chr = cart.chr_rom) ∧
    (∃ b2, b.cpu_write 0x2007 val = some b2 ∧
      b2.mapper = b.mapper ∧
      (∀ a, b2.mapper.chr_read a = b.mapper.chr_read a) ∧
      b2.ppu.chr_rom = b.ppu.chr_rom.set (b.ppu.v &&& 0x3FFF) val) ∧
    (∀ a v2 m2, b.mapper.chr_write a v2 = some m2 →
      ({ b with mapper := m2 } : Bus).ppu = b.ppu) := by
  refine ⟨⟨rfl, rfl⟩, ?_, ?_⟩
  · refine ⟨{ b with ppu :=
      { { b.ppu with
          v := ((b.ppu.v + PpuCtrl.vram_increment b.ppu.ctrl) % 65536) &&& 0x3FFF } with
        chr_rom := b.ppu.chr_rom.set (b.ppu.v &&& 0x3FFF) val } },
      ?_, rfl, fun a => rfl, rfl⟩
    rw [bus_cpu_write_2007, cpu_write_2007]
    have h2q : b.ppu.v &&& 0x3FFF <
        (({ b.ppu with
          v := ((b.ppu.v + PpuCtrl.vram_increment b.ppu.ctrl) % 65536) &&& 0x3FFF } :
          Ppu)).chr_rom.length := hlen
    rw [internal_write_pattern _ _ _ hpat h2q]
    rfl
  · exact fun a v2 m2 _ => rfl

/-- Witness for claim C10 on a freshly constructed bus (v = 0, 8 KiB CHR):
the $2007 write succeeds and leaves the mapper untouched. -/
theorem claim_c10_witness :
    ((Bus.new chrRamCart).ppu.v &&& 0x3FFF ≤ 0x1FFF) ∧
    ((Bus.new chrRamCart).ppu.v &&& 0x3FFF
      < (Bus.new chrRamCart).ppu.chr_rom.length) ∧
    (∃ b2, (Bus.new chrRamCart).cpu_write 0x2007 5 = some b2 ∧
      b2.mapper = (Bus.new chrRamCart).mapper ∧
      (∀ a, b2.mapper.chr_read a = (Bus.new chrRamCart).mapper.chr_read a) ∧
      b2.ppu.chr_rom = (Bus.new chrRamCart).ppu.chr_rom.set
        ((Bus.new chrRamCart).ppu.v &&& 0x3FFF) 5) := by
  have hlen : (Bus.new chrRamCart).ppu.v &&& 0x3FFF
      < (Bus.new chrRamCart).ppu.chr_rom.length := by
    rw [show (Bus.new chrRamCart).ppu.chr_rom = List.replicate 8192 0 from rfl,
      List.length_replicate]
    decide
  refine ⟨by decide, hlen, ?_⟩
  exact (claim_c10 chrRamCart _ 5 (by decide) hlen).2.1

end ViNES

namespace ViNES

/-! ### Claim theorems for the CPU arithmetic and status flags -/

/-- Claim C3: for every accumulator value A, operand byte M and incoming carry
bit C, ADC sets the accumulator to (A+M+C) mod 256, sets CARRY iff
A+M+C > 0xFF, sets OVERFLOW iff ((A xor result) and (M xor result) and 0x80)
is nonzero, sets ZERO and NEGATIVE from the result; SBC with operand M is
exactly ADC with operand (M xor 0xFF); the DECIMAL flag affects neither. -/
theorem claim_c3 (c : Cpu) (v : Nat) (ha : c.a < 256) (hv : v < 256) :
    (c.adc v).a = (c.a + v + (if c.status.carry then 1 else 0)) % 256 ∧
    (c.adc v).status.carry
      = decide (c.a + v + (if c.status.carry then 1 else 0) > 0xFF) ∧
    (c.adc v).status.overflow
      = decide ((c.a ^^^ (c.a + v + (if c.status.carry then 1 else 0)) % 256)
          &&& (v ^^^ (c.a + v + (if c.status.carry then 1 else 0)) % 256) &&& 0x80 ≠ 0) ∧
    (c.adc v).status.zero
      = decide ((c.a + v + (if c.status.carry then 1 else 0)) % 256 = 0) ∧
    (c.adc v).status.negative
      = decide (128 ≤ (c.a + v + (if c.status.carry then 1 else 0)) % 256) ∧
    c.sbc v = c.adc (v ^^^ 0xFF) ∧
    (∀ d : Bool,
      Cpu.adc { c with status := { c.status with decimal := d } } v
        = { c.adc v with status := { (c.adc v).status with decimal := d } }) := by
  have hsum : (c.a + v + (if c.status.carry then 1 else 0)) % 65536
      = c.a + v + (if c.status.carry then 1 else 0) := by
    apply Nat.mod_eq_of_lt
    split <;> omega
  have hneg : ((c.a + v + (if c.status.carry then 1 else 0)) % 256 &&& 0x80 ≠ 0)
      ↔ 128 ≤ (c.a + v + (if c.status.carry then 1 else 0)) % 256 :=
    and_hi_bit_iff _ (Nat.mod_lt _ (by omega))
  refine ⟨?_, ?_, ?_, ?_, ?_, rfl, ?_⟩
  · simp [Cpu.adc, Cpu.update_zero_negative, hsum]
  · simp [Cpu.adc, Cpu.update_zero_negative, hsum]
  · simp [Cpu.adc, Cpu.update_zero_negative, hsum]
  · simp [Cpu.adc, Cpu.update_zero_negative, hsum]
  · simp only [Cpu.adc, Cpu.update_zero_negative, hsum]
    simp [hneg]
  · intro d
    simp [Cpu.adc, Cpu.update_zero_negative, hsum]

/-- Witness for claim C3 at A = 200, M = 100, carry in = 0 (reset flags):
the accumulator becomes (200+100) mod 256 = 44. -/
theorem claim_c3_witness :
    ({ Cpu.new with a := 200 } : Cpu).a < 256 ∧ (100 : Nat) < 256 ∧
    (Cpu.adc { Cpu.new with a := 200 } 100).a = 44 := by
  refine ⟨by decide, by decide, ?_⟩
  have h := claim_c3 { Cpu.new with a := 200 } 100 (by decide) (by decide)
  rw [h.1]
  decide

/-- Claim C5: starting from the reset status 0x24, bit 5 (BREAK2) of the CPU
status is set after any sequence of status-register write paths (instructions,
NMI, IRQ); in particular the PLP / RTI pull masks the pulled byte with 0xCF,
ors in the previously held bits 4 and 5, and then forces bit 5 set. -/
theorem claim_c5 :
    (CpuFlags.fromBitsTruncate 0x24).break2 = true ∧
    (∀ ops : List StatusOp,
      ((ops.foldl (fun t op => applyStatusOp op t)
          (CpuFlags.fromBitsTruncate 0x24)).bits).testBit 5 = true) ∧
    (∀ s : CpuFlags, ∀ f : Nat, f < 256 →
      (applyStatusOp (StatusOp.pullStatus f) s).bits
        = ((f &&& 0xCF) ||| (s.bits &&& 0x30)) ||| 0x20) := by
  refine ⟨by decide, ?_, ?_⟩
  · intro ops
    rw [CpuFlags.bits_testBit5]
    exact foldl_statusOp_break2 ops _ (by decide)
  · intro s f hf
    have h1 : f &&& 0xCF < 256 := lt_of_le_of_lt Nat.and_le_right (by norm_num)
    have h2 : s.bits &&& 0x30 < 256 := lt_of_le_of_lt Nat.and_le_right (by norm_num)
    have hm : (f &&& 0xCF) ||| (s.bits &&& 0x30) < 256 := by
      have := Nat.or_lt_two_pow (n := 8)
        (by simpa using h1) (by simpa using h2)
      simpa using this
    simpa [applyStatusOp] using bits_fromBits_or20 _ hm

/-- Witness for claim C5: pulling 0xFF over an all-clear status yields the
byte 0xEF (bits 4 and 5 come from the old status, bit 5 is forced). -/
theorem claim_c5_witness :
    (0xFF : Nat) < 256 ∧
    (applyStatusOp (StatusOp.pullStatus 0xFF) (CpuFlags.fromBitsTruncate 0)).bits
      = 0xEF := by
  refine ⟨by decide, ?_⟩
  rw [claim_c5.2.2 (CpuFlags.fromBitsTruncate 0) 0xFF (by decide)]
  decide

end ViNES
